import Mathlib

/-!
# Message bus and StateMessage of the sailing robot

A shallow embedding of `MessageStuff/MessageBus.h` (the registered-node record with its
subscription list) and `NavigationSystem/Messages/StateMessage.h` (the vessel state message and
its byte format), followed by the properties proved about them. The later sections embed the
node initialisation of `main_lnm.cpp` and the decisions of the state estimation, the waypoint
manager, the line follower and the low-level controller of ASPire.

Pointers to `Node` objects are modelled by the address they hold together with the identity the
pointed-to node reports; `std::vector` is a `List` with `push_back` appending at the end.
-/

namespace SailingRobot

/-! ## Data model -/

/-- Modelled from the spec: the closed, extensible tag set `MessageType` of Message.h, a header
that is not among the sources. The named tags are the ones the sources mention; `other` stands
for every further tag of the enumeration. -/
inductive MessageType where
  | AISData
  | ASPireActuatorFeedback
  | CompassData
  | ExternalControl
  | GPSData
  | NavigationControl
  | ServerWaypointsReceived
  | StateMessage
  | VesselState
  | WaypointData
  | WindData
  | WindState
  | other (tag : Nat)
  deriving DecidableEq, Repr

/-- Modelled from the spec: the node identities `NodeID` of Message.h (not among the sources),
with the sentinel `None` for broadcast and anonymous producers. -/
inductive NodeID where
  | None
  | LowLevelControllerNodeASPire
  | SailingLogic
  | StateEstimation
  | Waypoint
  | other (tag : Nat)
  deriving DecidableEq, Repr

/-- What a `Node*` gives access to: the address of the node object (pointers are compared by
it) and the identity `nodeID()` that object reports. -/
structure Node where
  addr : Nat
  nodeID : NodeID
  deriving DecidableEq, Repr

/-- The record `MessageBus::RegisteredNode`: the node pointer and the message types the node is
interested in, in the order in which they were pushed. -/
structure RegisteredNode where
  nodePtr : Node
  interestedList : List MessageType
  deriving DecidableEq, Repr

namespace RegisteredNode

/-- The constructor `RegisteredNode(Node* node) : nodePtr(node) { }`; the vector member is
default-constructed, hence empty. -/
def init (node : Node) : RegisteredNode :=
  { nodePtr := node, interestedList := [] }

/-- The range-for loop of `isInterested`: returns `true` at the first element equal to `type`,
and `false` when the list is exhausted. -/
def isInterestedLoop (type : MessageType) : List MessageType → Bool
  | [] => false
  | msgType :: rest => if type = msgType then true else isInterestedLoop type rest

/-- The method `bool isInterested(MessageType type)`. -/
def isInterested (r : RegisteredNode) (type : MessageType) : Bool :=
  isInterestedLoop type r.interestedList

/-- The method `void subscribe(MessageType type)`:
`if(not isInterested(type)) { interestedList.push_back(type); }`. -/
def subscribe (r : RegisteredNode) (type : MessageType) : RegisteredNode :=
  if !r.isInterested type then
    { r with interestedList := r.interestedList ++ [type] }
  else r

/-- A finite sequence of `subscribe` calls on one record, performed left to right. -/
def subscribeAll (r : RegisteredNode) (types : List MessageType) : RegisteredNode :=
  types.foldl subscribe r

end RegisteredNode

/-! ## Message header and byte codec -/

/-- Modelled from the spec: the base class `Message` of Message.h (not among the sources), with
its attributes `type`, `sourceId`, `destinationId` and the `valid` flag. -/
structure Message where
  m_MessageType : MessageType
  m_SourceID : NodeID
  m_DestinationID : NodeID
  m_valid : Bool
  deriving DecidableEq, Repr

/-- Modelled from the spec: the value constructor `Message(type, sourceID, destinationID)` of
Message.h; a message built from values is valid. -/
def Message.init (msgType : MessageType) (msgSource msgDest : NodeID) : Message :=
  { m_MessageType := msgType, m_SourceID := msgSource, m_DestinationID := msgDest,
    m_valid := true }

/-- Modelled from the spec: the class `MessageSerialiser` (not among the sources), reduced to
the bytes appended so far, oldest first. -/
structure MessageSerialiser where
  data : List Nat
  deriving DecidableEq, Repr

/-- Modelled from the spec: the class `MessageDeserialiser` (not among the sources), reduced to
the bytes of its buffer that have not been read yet. -/
structure MessageDeserialiser where
  data : List Nat
  deriving DecidableEq, Repr

/-- The result of a call `bool readX(T& out)`: the returned flag, the content of `out` after
the call, and the deserialiser after the call. -/
abbrev ReadResult (α : Type) := Bool × α × MessageDeserialiser

/-- The field encodings of the serialiser and deserialiser classes, which are not among the
sources and enter as a parameter: for each field type the bytes `serialise` appends, and the
matching `read`, given the deserialiser and the previous content of the output argument.
A `float` or `double` value is represented by its IEEE-754 bit pattern. -/
structure Encoding where
  encodeType : MessageType → List Nat
  encodeNodeID : NodeID → List Nat
  encodeFloat : Nat → List Nat
  encodeDouble : Nat → List Nat
  readType : MessageDeserialiser → MessageType → ReadResult MessageType
  readNodeID : MessageDeserialiser → NodeID → ReadResult NodeID
  readFloat : MessageDeserialiser → Nat → ReadResult Nat
  readDouble : MessageDeserialiser → Nat → ReadResult Nat

/-- The call `serialiser.serialise(value)`: appends the bytes of one field. -/
def MessageSerialiser.serialise (serialiser : MessageSerialiser) (bytes : List Nat) :
    MessageSerialiser :=
  { data := serialiser.data ++ bytes }

/-- Modelled from the spec: `Message::Serialise` of Message.h, which appends `type`,
`sourceId` and `destinationId`, in this order. -/
def Message.Serialise (E : Encoding) (m : Message) (serialiser : MessageSerialiser) :
    MessageSerialiser :=
  let serialiser := serialiser.serialise (E.encodeType m.m_MessageType)
  let serialiser := serialiser.serialise (E.encodeNodeID m.m_SourceID)
  serialiser.serialise (E.encodeNodeID m.m_DestinationID)

/-- Modelled from the spec: the constructor `Message(MessageDeserialiser)` of Message.h, which
reads `type`, `sourceId` and `destinationId` in the order `Message::Serialise` wrote them and
marks the message invalid as soon as a read fails. `storage` is what the members hold before
the constructor runs; the deserialiser is returned as the derived class goes on reading it. -/
def Message.fromDeserialiser (E : Encoding) (deserialiser : MessageDeserialiser)
    (storage : Message) : Message × MessageDeserialiser :=
  match E.readType deserialiser storage.m_MessageType with
  | (false, msgType, d₁) =>
    ({ storage with m_MessageType := msgType, m_valid := false }, d₁)
  | (true, msgType, d₁) =>
    match E.readNodeID d₁ storage.m_SourceID with
    | (false, srcID, d₂) =>
      ({ storage with m_MessageType := msgType, m_SourceID := srcID, m_valid := false }, d₂)
    | (true, srcID, d₂) =>
      match E.readNodeID d₂ storage.m_DestinationID with
      | (false, dstID, d₃) =>
        ({ m_MessageType := msgType, m_SourceID := srcID, m_DestinationID := dstID,
           m_valid := false }, d₃)
      | (true, dstID, d₃) =>
        ({ m_MessageType := msgType, m_SourceID := srcID, m_DestinationID := dstID,
           m_valid := true }, d₃)

/-! ## StateMessage -/

/-- The class `StateMessage`: the `Message` base and the five private members, in the order of
their declaration. -/
structure StateMessage extends Message where
  m_VesselHeading : Nat
  m_VesselLat : Nat
  m_VesselLon : Nat
  m_VesselSpeed : Nat
  m_VesselCourse : Nat
  deriving DecidableEq, Repr

namespace StateMessage

/-- The constructor `StateMessage(destinationID, sourceID, compassHeading, lat, lon, gpsSpeed,
gpsCourse)`. -/
def init (destinationID sourceID : NodeID) (compassHeading lat lon gpsSpeed gpsCourse : Nat) :
    StateMessage :=
  { toMessage := Message.init MessageType.StateMessage sourceID destinationID,
    m_VesselHeading := compassHeading, m_VesselLat := lat, m_VesselLon := lon,
    m_VesselSpeed := gpsSpeed, m_VesselCourse := gpsCourse }

/-- The constructor `StateMessage(compassHeading, lat, lon, gpsSpeed, gpsCourse)`. -/
def initBroadcast (compassHeading lat lon gpsSpeed gpsCourse : Nat) : StateMessage :=
  { toMessage := Message.init MessageType.StateMessage NodeID.None NodeID.None,
    m_VesselHeading := compassHeading, m_VesselLat := lat, m_VesselLon := lon,
    m_VesselSpeed := gpsSpeed, m_VesselCourse := gpsCourse }

/-- The accessor `heading()`. -/
def heading (m : StateMessage) : Nat := m.m_VesselHeading

/-- The accessor `latitude()`. -/
def latitude (m : StateMessage) : Nat := m.m_VesselLat

/-- The accessor `longitude()`. -/
def longitude (m : StateMessage) : Nat := m.m_VesselLon

/-- The accessor `speed()`. -/
def speed (m : StateMessage) : Nat := m.m_VesselSpeed

/-- The accessor `course()`. -/
def course (m : StateMessage) : Nat := m.m_VesselCourse

/-- The constructor `StateMessage(MessageDeserialiser deserialiser)`: the base constructor
decodes the header, then the chain
`!readFloat(heading) || !readDouble(lat) || !readDouble(lon) || !readDouble(course) ||
!readDouble(speed)` is evaluated left to right and stops at the first failing read, in which
case `m_valid = false`. `storage` is what the members hold before the constructor runs. -/
def fromDeserialiser (E : Encoding) (deserialiser : MessageDeserialiser)
    (storage : StateMessage) : StateMessage :=
  let base := Message.fromDeserialiser E deserialiser storage.toMessage
  let m₀ : StateMessage := { storage with toMessage := base.1 }
  match E.readFloat base.2 m₀.m_VesselHeading with
  | (false, heading, _) => { m₀ with m_VesselHeading := heading, m_valid := false }
  | (true, heading, d₁) =>
    let m₁ : StateMessage := { m₀ with m_VesselHeading := heading }
    match E.readDouble d₁ m₁.m_VesselLat with
    | (false, lat, _) => { m₁ with m_VesselLat := lat, m_valid := false }
    | (true, lat, d₂) =>
      let m₂ : StateMessage := { m₁ with m_VesselLat := lat }
      match E.readDouble d₂ m₂.m_VesselLon with
      | (false, lon, _) => { m₂ with m_VesselLon := lon, m_valid := false }
      | (true, lon, d₃) =>
        let m₃ : StateMessage := { m₂ with m_VesselLon := lon }
        match E.readDouble d₃ m₃.m_VesselCourse with
        | (false, course, _) => { m₃ with m_VesselCourse := course, m_valid := false }
        | (true, course, d₄) =>
          let m₄ : StateMessage := { m₃ with m_VesselCourse := course }
          match E.readDouble d₄ m₄.m_VesselSpeed with
          | (false, speed, _) => { m₄ with m_VesselSpeed := speed, m_valid := false }
          | (true, speed, _) => { m₄ with m_VesselSpeed := speed }

/-- The method `Serialise`: the header through `Message::Serialise`, then heading, latitude,
longitude, course and speed. -/
def Serialise (E : Encoding) (m : StateMessage) (serialiser : MessageSerialiser) :
    MessageSerialiser :=
  let serialiser := Message.Serialise E m.toMessage serialiser
  let serialiser := serialiser.serialise (E.encodeFloat m.m_VesselHeading)
  let serialiser := serialiser.serialise (E.encodeDouble m.m_VesselLat)
  let serialiser := serialiser.serialise (E.encodeDouble m.m_VesselLon)
  let serialiser := serialiser.serialise (E.encodeDouble m.m_VesselCourse)
  serialiser.serialise (E.encodeDouble m.m_VesselSpeed)

/-- The byte format as the specification words it: the header, then the payload fields in the
order in which the class declares them (heading, latitude, longitude, speed, course). -/
def serialiseDeclarationOrder (E : Encoding) (m : StateMessage)
    (serialiser : MessageSerialiser) : MessageSerialiser :=
  let serialiser := Message.Serialise E m.toMessage serialiser
  let serialiser := serialiser.serialise (E.encodeFloat m.m_VesselHeading)
  let serialiser := serialiser.serialise (E.encodeDouble m.m_VesselLat)
  let serialiser := serialiser.serialise (E.encodeDouble m.m_VesselLon)
  let serialiser := serialiser.serialise (E.encodeDouble m.m_VesselSpeed)
  serialiser.serialise (E.encodeDouble m.m_VesselCourse)

/-- The five field reads of the deserialising constructor, made from the deserialiser `d₀`
that the header decode left: `true` when every one of them returns `true`. A read is made on
the deserialiser its predecessor left, so a failing read makes the whole chain fail. -/
def fieldReadsSucceed (E : Encoding) (d₀ : MessageDeserialiser) (storage : StateMessage) : Bool :=
  let r₁ := E.readFloat d₀ storage.m_VesselHeading
  let r₂ := E.readDouble r₁.2.2 storage.m_VesselLat
  let r₃ := E.readDouble r₂.2.2 storage.m_VesselLon
  let r₄ := E.readDouble r₃.2.2 storage.m_VesselCourse
  let r₅ := E.readDouble r₄.2.2 storage.m_VesselSpeed
  r₁.1 && r₂.1 && r₃.1 && r₄.1 && r₅.1

end StateMessage

/-- A serialise/read pair of one field type round-trips at the value `v`: reading from a
deserialiser that stands on the bytes written for `v` succeeds, returns `v` and leaves the
bytes that follow. -/
def FieldRoundTrips {α : Type} (encode : α → List Nat)
    (read : MessageDeserialiser → α → ReadResult α) (v : α) : Prop :=
  ∀ (rest : List Nat) (out : α), read { data := encode v ++ rest } out = (true, v, { data := rest })

/-- Every single-field serialise/read pair round-trips at the fields of the message `m`. -/
def Encoding.RoundTripsOn (E : Encoding) (m : StateMessage) : Prop :=
  FieldRoundTrips E.encodeType E.readType m.m_MessageType ∧
  FieldRoundTrips E.encodeNodeID E.readNodeID m.m_SourceID ∧
  FieldRoundTrips E.encodeNodeID E.readNodeID m.m_DestinationID ∧
  FieldRoundTrips E.encodeFloat E.readFloat m.m_VesselHeading ∧
  FieldRoundTrips E.encodeDouble E.readDouble m.m_VesselLat ∧
  FieldRoundTrips E.encodeDouble E.readDouble m.m_VesselLon ∧
  FieldRoundTrips E.encodeDouble E.readDouble m.m_VesselCourse ∧
  FieldRoundTrips E.encodeDouble E.readDouble m.m_VesselSpeed

/-! ## A fixed-width encoding -/

/-- The `width` low-order bytes of `value`, least significant first. -/
def encodeFixed : Nat → Nat → List Nat
  | 0, _ => []
  | width + 1, value => (value % 256) :: encodeFixed width (value / 256)

/-- The number whose bytes, least significant first, are `bytes`. -/
def decodeFixed : List Nat → Nat
  | [] => 0
  | b :: bytes => b + 256 * decodeFixed bytes

/-- A bounds-checked read of `width` bytes: fails, touching neither the output argument nor
the deserialiser, when fewer than `width` bytes are left. -/
def readFixed {α : Type} (width : Nat) (decode : Nat → α) (d : MessageDeserialiser) (out : α) :
    ReadResult α :=
  if width ≤ d.data.length then
    (true, decode (decodeFixed (d.data.take width)), { data := d.data.drop width })
  else (false, out, d)

/-- The number a message type is written as: the named tags in their listed order, then the
others. -/
def MessageType.toTag : MessageType → Nat
  | .AISData => 0
  | .ASPireActuatorFeedback => 1
  | .CompassData => 2
  | .ExternalControl => 3
  | .GPSData => 4
  | .NavigationControl => 5
  | .ServerWaypointsReceived => 6
  | .StateMessage => 7
  | .VesselState => 8
  | .WaypointData => 9
  | .WindData => 10
  | .WindState => 11
  | .other tag => 12 + tag

/-- The message type written as `tag`. -/
def MessageType.ofTag : Nat → MessageType
  | 0 => .AISData
  | 1 => .ASPireActuatorFeedback
  | 2 => .CompassData
  | 3 => .ExternalControl
  | 4 => .GPSData
  | 5 => .NavigationControl
  | 6 => .ServerWaypointsReceived
  | 7 => .StateMessage
  | 8 => .VesselState
  | 9 => .WaypointData
  | 10 => .WindData
  | 11 => .WindState
  | tag + 12 => .other tag

/-- The number a node identity is written as. -/
def NodeID.toTag : NodeID → Nat
  | .None => 0
  | .LowLevelControllerNodeASPire => 1
  | .SailingLogic => 2
  | .StateEstimation => 3
  | .Waypoint => 4
  | .other tag => 5 + tag

/-- The node identity written as `tag`. -/
def NodeID.ofTag : Nat → NodeID
  | 0 => .None
  | 1 => .LowLevelControllerNodeASPire
  | 2 => .SailingLogic
  | 3 => .StateEstimation
  | 4 => .Waypoint
  | tag + 5 => .other tag

/-- Modelled from the spec: the fixed-width byte format of the serialiser and deserialiser
classes (not among the sources). The message type and the node identities take one byte each,
a `float` the four bytes and a `double` the eight bytes of its IEEE-754 bit pattern; a read
fails on a buffer that is too short. -/
def fixedWidth : Encoding :=
  { encodeType := fun t => encodeFixed 1 t.toTag
    encodeNodeID := fun n => encodeFixed 1 n.toTag
    encodeFloat := encodeFixed 4
    encodeDouble := encodeFixed 8
    readType := readFixed 1 MessageType.ofTag
    readNodeID := readFixed 1 NodeID.ofTag
    readFloat := readFixed 4 id
    readDouble := readFixed 8 id }

/-! ## Message bus -/

/-- The data members of `MessageBus`: the running flag and the registered-node records in
registration order. -/
structure MessageBus where
  m_Running : Bool
  m_RegisteredNodes : List RegisteredNode
  deriving DecidableEq, Repr

namespace MessageBus

/-- Modelled from the spec: the default constructor of `MessageBus`, defined in
MessageBus.cpp, which is not among the sources: not running, no node registered. -/
def init : MessageBus :=
  { m_Running := false, m_RegisteredNodes := [] }

/-- Modelled from the spec: the search of `getRegisteredNode` (MessageBus.cpp is not among the
sources): the position of the first record whose node pointer is `node`, if there is one. -/
def findRegisteredNode (node : Node) : List RegisteredNode → Option Nat
  | [] => none
  | r :: rest =>
    if r.nodePtr.addr = node.addr then some 0
    else (findRegisteredNode node rest).map (· + 1)

/-- Modelled from the spec: `getRegisteredNode` of MessageBus.cpp (not among the sources),
after its description in MessageBus.h: it looks for the record of the node pointer and returns
it; if the node has not been registered yet, a fresh record is appended and returned. The
returned pointer is the position of the record in `m_RegisteredNodes`. -/
def getRegisteredNode (bus : MessageBus) (node : Node) : MessageBus × Nat :=
  match findRegisteredNode node bus.m_RegisteredNodes with
  | some i => (bus, i)
  | none =>
    ({ bus with m_RegisteredNodes := bus.m_RegisteredNodes ++ [RegisteredNode.init node] },
      bus.m_RegisteredNodes.length)

/-- Modelled from the spec: `registerNode(node)` of MessageBus.cpp (not among the sources):
adds `node` to the registry with an empty subscription set if it is not present yet. -/
def registerNode (bus : MessageBus) (node : Node) : MessageBus :=
  (bus.getRegisteredNode node).1

/-- The call `record->subscribe(type)` on the record at position `i`. -/
def subscribeAt (type : MessageType) : Nat → List RegisteredNode → List RegisteredNode
  | _, [] => []
  | 0, r :: rest => r.subscribe type :: rest
  | i + 1, r :: rest => r :: subscribeAt type i rest

/-- Modelled from the spec: `registerNode(node, msgType)` of MessageBus.cpp (not among the
sources): as `registerNode(node)`, and the node is subscribed to `msgType`. -/
def registerNodeFor (bus : MessageBus) (node : Node) (msgType : MessageType) : MessageBus :=
  let found := bus.getRegisteredNode node
  { found.1 with m_RegisteredNodes := subscribeAt msgType found.2 found.1.m_RegisteredNodes }

/-- Modelled from the spec: the first registered record whose node has the identity `id`. -/
def findByIdentity (id : NodeID) : List RegisteredNode → Option RegisteredNode
  | [] => none
  | r :: rest => if r.nodePtr.nodeID = id then some r else findByIdentity id rest

/-- Modelled from the spec: the records a broadcast of `type` goes to, in registry order. -/
def interestedNodes (type : MessageType) : List RegisteredNode → List Node
  | [] => []
  | r :: rest =>
    if r.isInterested type then r.nodePtr :: interestedNodes type rest
    else interestedNodes type rest

/-- Modelled from the spec: the dispatch of one message by `run()` (MessageBus.cpp is not among
the sources), as the list of the nodes on which `processMessage` is invoked, in order. A
message with a destination goes to the single registered node of that identity, if present,
whatever it subscribed to, and is dropped otherwise; a message without destination goes to
every registered node whose subscriptions contain its type, in registry order. -/
def dispatch (bus : MessageBus) (msg : Message) : List Node :=
  if msg.m_DestinationID ≠ NodeID.None then
    match findByIdentity msg.m_DestinationID bus.m_RegisteredNodes with
    | some r => [r.nodePtr]
    | none => []
  else interestedNodes msg.m_MessageType bus.m_RegisteredNodes

end MessageBus

/-- Modelled from the spec: the state of the queue and of the dispatcher, which MessageBus.cpp
(not among the sources) keeps: the queued messages, oldest first, the message under dispatch
with the nodes still to be invoked for it, and the invocations of `processMessage` made so
far, oldest first. -/
structure RunState where
  queue : List Message
  current : Option (Message × List Node)
  delivered : List (Node × Message)
  deriving DecidableEq, Repr

/-- The state before any message was sent. -/
def RunState.init : RunState :=
  { queue := [], current := none, delivered := [] }

/-- What can happen on a running bus: a `sendMessage` call of some thread completes, or the
dispatcher thread makes one step of `run()`. -/
inductive BusEvent where
  | sendMessage (msg : Message)
  | runStep
  deriving DecidableEq, Repr

namespace MessageBus

/-- Modelled from the spec: `sendMessage` of MessageBus.cpp (not among the sources): the
message joins the queue behind the ones already there. -/
def sendMessage (st : RunState) (msg : Message) : RunState :=
  { st with queue := st.queue ++ [msg] }

/-- Modelled from the spec: one step of the loop of `run()` (MessageBus.cpp is not among the
sources). While a message is under dispatch, `processMessage` is invoked on its next node, and
the message is finished when none is left; otherwise the oldest queued message is removed and
its dispatch begins; on an empty queue the dispatcher waits. -/
def runStep (bus : MessageBus) (st : RunState) : RunState :=
  match st.current with
  | some (msg, node :: rest) =>
    { st with current := some (msg, rest), delivered := st.delivered ++ [(node, msg)] }
  | some (_, []) => { st with current := none }
  | none =>
    match st.queue with
    | [] => st
    | msg :: queue => { st with queue := queue, current := some (msg, bus.dispatch msg) }

/-- The effect of one event. -/
def step (bus : MessageBus) (st : RunState) : BusEvent → RunState
  | .sendMessage msg => sendMessage st msg
  | .runStep => bus.runStep st

/-- The effect of a sequence of events, oldest first. -/
def exec (bus : MessageBus) (st : RunState) (events : List BusEvent) : RunState :=
  events.foldl bus.step st

/-- The messages whose `sendMessage` completed, in the order of completion. -/
def sentMessages : List BusEvent → List Message
  | [] => []
  | .sendMessage msg :: events => msg :: sentMessages events
  | .runStep :: events => sentMessages events

/-- The invocations of `processMessage` that a strictly first-in first-out dispatch of
`msgs` consists of: all invocations for the first message in dispatch order, then all for the
second, and so on. -/
def fifoDeliveries (bus : MessageBus) : List Message → List (Node × Message)
  | [] => []
  | msg :: msgs => (bus.dispatch msg).map (fun node => (node, msg)) ++ fifoDeliveries bus msgs

/-- The invocations still to be made in the state `st`: the rest of the message under
dispatch, then the queued messages in order. -/
def pendingDeliveries (bus : MessageBus) (st : RunState) : List (Node × Message) :=
  (match st.current with
    | some (msg, nodes) => nodes.map (fun node => (node, msg))
    | none => [])
  ++ fifoDeliveries bus st.queue

/-- The number of `run()` steps after which the state `st` is drained, if nothing is sent. -/
def remainingSteps (bus : MessageBus) (st : RunState) : Nat :=
  (match st.current with
    | some (_, nodes) => nodes.length + 1
    | none => 0)
  + (st.queue.map (fun msg => (bus.dispatch msg).length + 2)).sum

end MessageBus

/-! ## Node initialisation (main_lnm.cpp) -/

/-- The enumeration `NodeImportance`. -/
inductive NodeImportance where
  | CRITICAL
  | NOT_CRITICAL
  deriving DecidableEq, Repr

/-- The calls `initialiseNode` makes on the logger, one constructor for each call site. -/
inductive InitLog where
  | initOk (nodeName : String)
  | initFailed (nodeName : String)
  | criticalNodeFailed
  | shutdown
  deriving DecidableEq, Repr

/-- The function `initialiseNode(node, nodeName, importance)`. `initResult` is the value
`node.init()` returns. The result is the sequence of logger calls made and how the function
ends: `none` when it returns to its caller, `some code` when it ends the program through
`exit(code)`. -/
def initialiseNode (initResult : Bool) (nodeName : String) (importance : NodeImportance) :
    List InitLog × Option Int :=
  if initResult then
    ([InitLog.initOk nodeName], none)
  else if importance = NodeImportance.CRITICAL then
    ([InitLog.initFailed nodeName, InitLog.criticalNodeFailed, InitLog.shutdown], some 1)
  else
    ([InitLog.initFailed nodeName], none)

/-! ## State estimation (WorldState/StateEstimationNode.cpp)

The `double` and `float` members are represented by rational numbers: the comparisons the code
makes are the comparisons of these numbers, and neither rounding nor the special values of the
floating-point formats are represented. -/

/-- The data members of `StateEstimationNode` that its constructors initialise. -/
structure StateEstimationNode where
  m_LoopTime : ℚ
  m_CompassHeading : ℚ
  m_GpsOnline : Bool
  m_GPSLat : ℚ
  m_GPSLon : ℚ
  m_GPSSpeed : ℚ
  m_GPSCourse : ℚ
  m_WaypointDeclination : ℚ
  m_speed_1 : ℚ
  m_speed_2 : ℚ
  m_VesselHeading : ℚ
  m_VesselLat : ℚ
  m_VesselLon : ℚ
  m_VesselSpeed : ℚ
  m_VesselCourse : ℚ
  deriving DecidableEq, Repr

/-- The expression a call of `estimateVesselCourse` returns: one of the two members, or a call
of `Utility::linearFunctionBetweenAngle` with the recorded arguments. -/
inductive CourseEstimate where
  | vesselHeading (value : ℚ)
  | gpsCourse (value : ℚ)
  | linearFunctionBetweenAngle (x x1 x2 angle1 angle2 : ℚ)
  deriving DecidableEq, Repr

/-- The number a `CourseEstimate` stands for; `Utility::linearFunctionBetweenAngle`, which is
not among the sources, enters as the parameter `interpolate`. -/
def CourseEstimate.value (interpolate : ℚ → ℚ → ℚ → ℚ → ℚ → ℚ) : CourseEstimate → ℚ
  | .vesselHeading value => value
  | .gpsCourse value => value
  | .linearFunctionBetweenAngle x x1 x2 angle1 angle2 => interpolate x x1 x2 angle1 angle2

namespace StateEstimationNode

/-- The constructor `StateEstimationNode(msgBus, loopTime, speed_1, speed_2)`, without the
registration on the bus. -/
def init (loopTime speed_1 speed_2 : ℚ) : StateEstimationNode :=
  { m_LoopTime := loopTime, m_CompassHeading := 0, m_GpsOnline := false, m_GPSLat := 0,
    m_GPSLon := 0, m_GPSSpeed := 0, m_GPSCourse := 0, m_WaypointDeclination := 0,
    m_speed_1 := speed_1, m_speed_2 := speed_2, m_VesselHeading := 0, m_VesselLat := 0,
    m_VesselLon := 0, m_VesselSpeed := 0, m_VesselCourse := 0 }

/-- The first statement of `estimateVesselCourse`:
`if (m_speed_1 > m_speed_2) { m_speed_1 = m_speed_2; }`. -/
def orderSpeeds (node : StateEstimationNode) : StateEstimationNode :=
  if node.m_speed_1 > node.m_speed_2 then { node with m_speed_1 := node.m_speed_2 } else node

/-- The method `estimateVesselCourse`: the node after the call and the expression returned. -/
def estimateVesselCourse (node : StateEstimationNode) : StateEstimationNode × CourseEstimate :=
  let node := node.orderSpeeds
  if node.m_VesselSpeed < node.m_speed_1 then
    (node, CourseEstimate.vesselHeading node.m_VesselHeading)
  else if node.m_VesselSpeed ≥ node.m_speed_2 then
    (node, CourseEstimate.gpsCourse node.m_GPSCourse)
  else
    (node, CourseEstimate.linearFunctionBetweenAngle node.m_VesselSpeed node.m_speed_1
      node.m_speed_2 node.m_VesselHeading node.m_GPSCourse)

end StateEstimationNode

/-! ## Waypoint harvesting (Navigation/WaypointMgrNode.cpp) -/

/-- The class `Timer` of the waypoint timer, which is not among the sources and enters as a
parameter: `start` is the effect of `start()` on a timer, and `timeReached` the answer of
`timeReached(seconds)`; the reading of the clock is part of the timer value. -/
structure TimerOps (Timer : Type) where
  start : Timer → Timer
  timeReached : Timer → Int → Bool

/-- The members of `WaypointMgrNode` that `harvestWaypoint` reads or writes. -/
structure WaypointMgrNode (Timer : Type) where
  m_vesselLongitude : ℚ
  m_vesselLatitude : ℚ
  m_nextLongitude : ℚ
  m_nextLatitude : ℚ
  m_nextRadius : Int
  m_nextStayTime : Int
  m_waypointTimer : Timer
  writeTime : Bool

/-- The calls `harvestWaypoint` makes on the logger. -/
inductive HarvestLog where
  | startedWaypointTimer (stayTime : Int)
  | waypointTimerPassed
  deriving DecidableEq, Repr

/-- The first part of the stay-time branch of `harvestWaypoint`: the timer is started and the
start is logged once, under the guard of `writeTime`. -/
def WaypointMgrNode.startStayTimer {Timer : Type} (T : TimerOps Timer)
    (node : WaypointMgrNode Timer) : WaypointMgrNode Timer × List HarvestLog :=
  let node := { node with m_waypointTimer := T.start node.m_waypointTimer }
  if !node.writeTime then
    ({ node with writeTime := true }, [HarvestLog.startedWaypointTimer node.m_nextStayTime])
  else (node, [])

/-- The value `CourseMath::calculateDTW(m_vesselLongitude, m_vesselLatitude, m_nextLongitude,
m_nextLatitude)`; `CourseMath::calculateDTW` is not among the sources and enters as the
parameter `calculateDTW`. -/
def WaypointMgrNode.distanceToWaypoint {Timer : Type} (calculateDTW : ℚ → ℚ → ℚ → ℚ → ℚ)
    (node : WaypointMgrNode Timer) : ℚ :=
  calculateDTW node.m_vesselLongitude node.m_vesselLatitude node.m_nextLongitude
    node.m_nextLatitude

/-- The method `harvestWaypoint`: the node after the call, the logger calls made and the value
returned. -/
def WaypointMgrNode.harvestWaypoint {Timer : Type} (T : TimerOps Timer)
    (calculateDTW : ℚ → ℚ → ℚ → ℚ → ℚ) (node : WaypointMgrNode Timer) :
    WaypointMgrNode Timer × List HarvestLog × Bool :=
  let DistanceToWaypoint := node.distanceToWaypoint calculateDTW
  if DistanceToWaypoint > (node.m_nextRadius : ℚ) then
    (node, [], false)
  else if node.m_nextStayTime > 0 then
    let started := node.startStayTimer T
    if T.timeReached started.1.m_waypointTimer started.1.m_nextStayTime then
      ({ started.1 with writeTime := false },
        started.2 ++ [HarvestLog.waypointTimerPassed], true)
    else (started.1, started.2, false)
  else
    (node, [], true)

/-! ## Line following (Nodes/LineFollowNode.cpp)

Numbers of type `float` and `double` are represented by rational numbers, as for the state
estimation; `int` values are integers. -/

/-- The macro `NORM_RUDDER_COMMAND`. -/
def NORM_RUDDER_COMMAND : ℚ := 5166 / 10000

/-- The macro `M_PI` of the C library, at the value of its decimal literal
`3.14159265358979323846`. -/
def M_PI : ℚ := 314159265358979323846 / 100000000000000000000

/-- The functions of `Utility` that the embedded parts of `LineFollowNode` call. Utility.h is
not among the sources, so they enter as a parameter. -/
structure Utility where
  sgn : ℚ → Int
  addDeclinationToHeading : Int → Int → Int
  directionAdjustedSpeed : Int → Int → ℚ → ℚ

/-- The members of `LineFollowNode` that the rudder command and the heading merge use. -/
structure LineFollowNode where
  m_nextWaypointDeclination : Int
  m_gpsHeadingWeight : ℚ
  m_maxCommandAngle : ℚ
  deriving DecidableEq, Repr

namespace LineFollowNode

/-- The value `M_PI / 6` that the constructor assigns to `m_maxCommandAngle`, the same for
each of the three boat types. -/
def maxCommandAngle : ℚ := M_PI / 6

/-- The block `SET RUDDER` of `calculateActuatorPos`. `cosError` and `sinError` are the values
of `cos(currentHeading_radian - desiredHeading)` and `sin(currentHeading_radian -
desiredHeading)`. -/
def rudderCommand (U : Utility) (node : LineFollowNode) (cosError sinError : ℚ) : ℚ :=
  if cosError < 0 then node.m_maxCommandAngle * (U.sgn sinError : ℚ)
  else node.m_maxCommandAngle * sinError

/-- The argument `rudderCommand/NORM_RUDDER_COMMAND` that `calculateActuatorPos` hands to
`m_rudderCommand.getCommand`. -/
def rudderCommandArgument (U : Utility) (node : LineFollowNode) (cosError sinError : ℚ) : ℚ :=
  rudderCommand U node cosError sinError / NORM_RUDDER_COMMAND

/-- At most `fuel` rounds of the loop `while (diff > 360) diff -= 360;` on a `float`. -/
def floatLoopAbove360 : Nat → ℚ → ℚ
  | 0, diff => diff
  | fuel + 1, diff => if diff > 360 then floatLoopAbove360 fuel (diff - 360) else diff

/-- The loop `while (diff > 360) diff -= 360;`, run with as many rounds as it can need. -/
def floatWhileAbove360 (diff : ℚ) : ℚ :=
  floatLoopAbove360 ⌈diff / 360⌉₊ diff

/-- At most `fuel` rounds of the loop `while (returnValue > 360) returnValue -= 360;`. -/
def intLoopAbove360 : Nat → Int → Int
  | 0, returnValue => returnValue
  | fuel + 1, returnValue =>
    if returnValue > 360 then intLoopAbove360 fuel (returnValue - 360) else returnValue

/-- The loop `while (returnValue > 360) returnValue -= 360;`, run with as many rounds as it
can need. -/
def intWhileAbove360 (returnValue : Int) : Int :=
  intLoopAbove360 returnValue.toNat returnValue

/-- The conversion of a floating-point number to `int`, which drops the fractional part. -/
def toInt (x : ℚ) : Int :=
  if 0 ≤ x then Rat.floor x else -Rat.floor (-x)

/-- The statement of `getMergedHeading` that moves `m_gpsHeadingWeight` by `tickRate`: down,
not below 0, when `increaseCompassWeight` is set, and up, not above 1, otherwise. -/
def updateGpsHeadingWeight (node : LineFollowNode) (increaseCompassWeight : Bool) :
    LineFollowNode :=
  let tickRate : ℚ := 1 / 100
  if increaseCompassWeight then
    let node := { node with m_gpsHeadingWeight := node.m_gpsHeadingWeight - tickRate }
    if node.m_gpsHeadingWeight < 0 then { node with m_gpsHeadingWeight := 0 } else node
  else
    let node := { node with m_gpsHeadingWeight := node.m_gpsHeadingWeight + tickRate }
    if node.m_gpsHeadingWeight > 1 then { node with m_gpsHeadingWeight := 1 } else node

/-- The method `getMergedHeading(gpsHeading, compassHeading, increaseCompassWeight)`: the
value returned and the node after the call. -/
def getMergedHeading (U : Utility) (node : LineFollowNode) (gpsHeading compassHeading : Int)
    (increaseCompassWeight : Bool) : Int × LineFollowNode :=
  let headingCompass := U.addDeclinationToHeading compassHeading node.m_nextWaypointDeclination
  let headingGps := gpsHeading
  let node := node.updateGpsHeadingWeight increaseCompassWeight
  let diff : ℚ := (((headingGps - headingCompass) + 180 + 360 : Int) : ℚ)
  let diff := floatWhileAbove360 diff
  let diff := diff - 180
  let returnValue : Int :=
    toInt (((360 + headingCompass : Int) : ℚ) + diff * node.m_gpsHeadingWeight)
  let returnValue := intWhileAbove360 returnValue
  (returnValue, node)

/-- The method `getHeading(gpsHeading, compassHeading, gpsSpeed, mockPosition,
getHeadingFromCompass)`: the value returned and the node after the call. The first call of
`getMergedHeading` passes `true`, the second one passes `gpsForbidden`. -/
def getHeading (U : Utility) (node : LineFollowNode) (gpsHeading compassHeading : Int)
    (gpsSpeed : ℚ) (_mockPosition _getHeadingFromCompass : Bool) : Int × LineFollowNode :=
  let useGpsForHeadingMeterSecSpeed : Int := 1
  let gpsForbidden : Bool :=
    decide (U.directionAdjustedSpeed gpsHeading compassHeading gpsSpeed
      < (useGpsForHeadingMeterSecSpeed : ℚ))
  let first := getMergedHeading U node gpsHeading compassHeading true
  let second := getMergedHeading U first.2 gpsHeading compassHeading gpsForbidden
  (U.addDeclinationToHeading second.1 second.2.m_nextWaypointDeclination, second.2)

end LineFollowNode

/-! ## Low-level controller of ASPire (Nodes/LowLevelControllerNodeASPire.cpp)

The numbers carried by the messages are kept in the representation `StateMessage` uses; the
comparison of a member with `DATA_OUT_OF_RANGE` is the comparison of the representations. -/

/-- The accessors of `WindStateMsg` that the node reads (the class is not among the
sources). -/
structure WindStateMsg where
  trueWindSpeed : Nat
  trueWindDirection : Nat
  apparentWindSpeed : Nat
  apparentWindDirection : Nat
  deriving DecidableEq, Repr

/-- The accessors of `NavigationControlMsg` that the node reads (the class is not among the
sources). -/
structure NavigationControlMsg where
  navigationState : Nat
  courseToSteer : Nat
  targetSpeed : Nat
  windvaneSelfSteeringOn : Bool
  deriving DecidableEq, Repr

/-- A message handed to `processMessage`, by the value of `messageType()`: one of the three
types the node casts to and reads, or any other type. -/
inductive ControllerInput where
  | stateMessage (msg : StateMessage)
  | windState (msg : WindStateMsg)
  | navigationControl (msg : NavigationControlMsg)
  | other (type : MessageType)
  deriving DecidableEq, Repr

/-- The constructor arguments of an `ActuatorControlASPireMessage`. -/
structure ActuatorControlASPireMessage where
  wingsailServoAngle : Nat
  rudderAngle : Nat
  windvaneSelfSteeringOn : Bool
  deriving DecidableEq, Repr

/-- The classes of the members `m_WingsailControl` and `m_CourseRegulator`, which are not
among the sources and enter as a parameter: their setters and their two computations. -/
structure ControlOps (Wingsail Regulator : Type) where
  setVesselHeading : Wingsail → Nat → Wingsail
  setTrueWindDirection : Wingsail → Nat → Wingsail
  calculateServoAngle : Wingsail → Nat
  setVesselCourse : Regulator → Nat → Regulator
  setCourseToSteer : Regulator → Nat → Regulator
  calculateRudderAngle : Regulator → Nat

/-- The members of `LowLevelControllerNodeASPire` that `processMessage` reads or writes. -/
structure LowLevelControllerNodeASPire (Wingsail Regulator : Type) where
  m_VesselHeading : Nat
  m_VesselLatitude : Nat
  m_VesselLongitude : Nat
  m_VesselSpeed : Nat
  m_VesselCourse : Nat
  m_TrueWindSpeed : Nat
  m_TrueWindDir : Nat
  m_ApparentWindSpeed : Nat
  m_ApparentWindDir : Nat
  m_NavigationState : Nat
  m_CourseToSteer : Nat
  m_TargetSpeed : Nat
  m_WindvaneSelfSteeringOn : Bool
  m_WingsailControl : Wingsail
  m_CourseRegulator : Regulator

namespace LowLevelControllerNodeASPire

/-- The method `processStateMessage`. -/
def processStateMessage {Wingsail Regulator : Type}
    (ops : ControlOps Wingsail Regulator)
    (node : LowLevelControllerNodeASPire Wingsail Regulator) (msg : StateMessage) :
    LowLevelControllerNodeASPire Wingsail Regulator :=
  { node with
    m_VesselHeading := msg.heading
    m_VesselLatitude := msg.latitude
    m_VesselLongitude := msg.longitude
    m_VesselSpeed := msg.speed
    m_VesselCourse := msg.course
    m_WingsailControl := ops.setVesselHeading node.m_WingsailControl msg.heading
    m_CourseRegulator := ops.setVesselCourse node.m_CourseRegulator msg.course }

/-- The method `processWindStateMessage`. -/
def processWindStateMessage {Wingsail Regulator : Type}
    (ops : ControlOps Wingsail Regulator)
    (node : LowLevelControllerNodeASPire Wingsail Regulator) (msg : WindStateMsg) :
    LowLevelControllerNodeASPire Wingsail Regulator :=
  { node with
    m_TrueWindSpeed := msg.trueWindSpeed
    m_TrueWindDir := msg.trueWindDirection
    m_ApparentWindSpeed := msg.apparentWindSpeed
    m_ApparentWindDir := msg.apparentWindDirection
    m_WingsailControl := ops.setTrueWindDirection node.m_WingsailControl msg.trueWindDirection }

/-- The method `processNavigationControlMessage`. -/
def processNavigationControlMessage {Wingsail Regulator : Type}
    (ops : ControlOps Wingsail Regulator)
    (node : LowLevelControllerNodeASPire Wingsail Regulator) (msg : NavigationControlMsg) :
    LowLevelControllerNodeASPire Wingsail Regulator :=
  { node with
    m_NavigationState := msg.navigationState
    m_CourseToSteer := msg.courseToSteer
    m_TargetSpeed := msg.targetSpeed
    m_WindvaneSelfSteeringOn := msg.windvaneSelfSteeringOn
    m_CourseRegulator := ops.setCourseToSteer node.m_CourseRegulator msg.courseToSteer }

/-- The chain `if(type == StateMessage) ... else if(type == WindState) ... else if(type ==
NavigationControl) ...` at the head of `processMessage`. -/
def receive {Wingsail Regulator : Type}
    (ops : ControlOps Wingsail Regulator)
    (node : LowLevelControllerNodeASPire Wingsail Regulator) (message : ControllerInput) :
    LowLevelControllerNodeASPire Wingsail Regulator :=
  match message with
  | .stateMessage msg => processStateMessage ops node msg
  | .windState msg => processWindStateMessage ops node msg
  | .navigationControl msg => processNavigationControlMessage ops node msg
  | .other _ => node

/-- The method `processMessage`: the node after the call and the messages handed to
`sendMessage` during the call. `DATA_OUT_OF_RANGE` is the value of the macro of that name,
which is not among the sources. -/
def processMessage {Wingsail Regulator : Type}
    (ops : ControlOps Wingsail Regulator) (DATA_OUT_OF_RANGE : Nat)
    (node : LowLevelControllerNodeASPire Wingsail Regulator) (message : ControllerInput) :
    LowLevelControllerNodeASPire Wingsail Regulator × List ActuatorControlASPireMessage :=
  let node := receive ops node message
  (node,
    if node.m_VesselHeading ≠ DATA_OUT_OF_RANGE ∧ node.m_TrueWindSpeed ≠ DATA_OUT_OF_RANGE
        ∧ node.m_CourseToSteer ≠ DATA_OUT_OF_RANGE then
      [{ wingsailServoAngle := ops.calculateServoAngle node.m_WingsailControl
         rudderAngle := ops.calculateRudderAngle node.m_CourseRegulator
         windvaneSelfSteeringOn := node.m_WindvaneSelfSteeringOn }]
    else [])

/-- The node after the messages `messages` were processed one after the other. -/
def processAll {Wingsail Regulator : Type}
    (ops : ControlOps Wingsail Regulator) (DATA_OUT_OF_RANGE : Nat)
    (node : LowLevelControllerNodeASPire Wingsail Regulator) (messages : List ControllerInput) :
    LowLevelControllerNodeASPire Wingsail Regulator :=
  messages.foldl (fun node message => (processMessage ops DATA_OUT_OF_RANGE node message).1) node

end LowLevelControllerNodeASPire

/-- The message is one of type `StateMessage`. -/
def ControllerInput.isStateMessage : ControllerInput → Bool
  | .stateMessage _ => true
  | _ => false

/-- The message is one of type `WindState`. -/
def ControllerInput.isWindState : ControllerInput → Bool
  | .windState _ => true
  | _ => false

/-- The message is one of type `NavigationControl`. -/
def ControllerInput.isNavigationControl : ControllerInput → Bool
  | .navigationControl _ => true
  | _ => false

/-- The message does not carry `DATA_OUT_OF_RANGE` in the field the node tests afterwards:
the heading of a `StateMessage`, the true wind speed of a `WindState` message, the course to
steer of a `NavigationControl` message. -/
def ControllerInput.carriesData (DATA_OUT_OF_RANGE : Nat) : ControllerInput → Bool
  | .stateMessage msg => decide (msg.heading ≠ DATA_OUT_OF_RANGE)
  | .windState msg => decide (msg.trueWindSpeed ≠ DATA_OUT_OF_RANGE)
  | .navigationControl msg => decide (msg.courseToSteer ≠ DATA_OUT_OF_RANGE)
  | .other _ => true

/-! ## State estimation: messages and vessel state (WorldState/StateEstimationNode.cpp) -/

/-- The accessor of `CompassDataMsg` that the node reads (the class is not among the
sources). -/
structure CompassDataMsg where
  heading : ℚ
  deriving DecidableEq, Repr

/-- The accessors of `GPSDataMsg` that the node reads (the class is not among the sources). -/
structure GPSDataMsg where
  gpsOnline : Bool
  latitude : ℚ
  longitude : ℚ
  speed : ℚ
  course : ℚ
  deriving DecidableEq, Repr

/-- The accessor of `WaypointDataMsg` that the node reads (the class is not among the
sources). -/
structure WaypointDataMsg where
  nextDeclination : Int
  deriving DecidableEq, Repr

/-- A message handed to `StateEstimationNode::processMessage`, by the value of
`messageType()`: one of the three types of the `switch`, or any other type. -/
inductive EstimationInput where
  | compassData (msg : CompassDataMsg)
  | gpsData (msg : GPSDataMsg)
  | waypointData (msg : WaypointDataMsg)
  | other (type : MessageType)
  deriving DecidableEq, Repr

/-- What happens to a `StateEstimationNode` while it runs: the bus hands it a message, or its
thread calls `estimateVesselState`. -/
inductive EstimationEvent where
  | processMessage (message : EstimationInput)
  | estimateVesselState
  deriving DecidableEq, Repr

namespace StateEstimationNode

/-- The constructor `StateEstimationNode(msgBus, loopTime)`, without the registration on the
bus. -/
def initLoopTime (loopTime : ℚ) : StateEstimationNode :=
  { m_LoopTime := loopTime, m_CompassHeading := 0, m_GpsOnline := false, m_GPSLat := 0,
    m_GPSLon := 0, m_GPSSpeed := 0, m_GPSCourse := 0, m_WaypointDeclination := 0,
    m_speed_1 := 0, m_speed_2 := 1, m_VesselHeading := 0, m_VesselLat := 0,
    m_VesselLon := 0, m_VesselSpeed := 0, m_VesselCourse := 0 }

/-- The method `processCompassMessage`. -/
def processCompassMessage (node : StateEstimationNode) (msg : CompassDataMsg) :
    StateEstimationNode :=
  { node with m_CompassHeading := msg.heading }

/-- The method `processGPSMessage`. -/
def processGPSMessage (node : StateEstimationNode) (msg : GPSDataMsg) : StateEstimationNode :=
  { node with
    m_GpsOnline := msg.gpsOnline
    m_GPSLat := msg.latitude
    m_GPSLon := msg.longitude
    m_GPSSpeed := msg.speed
    m_GPSCourse := msg.course }

/-- The method `processWaypointMessage`. -/
def processWaypointMessage (node : StateEstimationNode) (msg : WaypointDataMsg) :
    StateEstimationNode :=
  { node with m_WaypointDeclination := (msg.nextDeclination : ℚ) }

/-- The method `processMessage`. -/
def processMessage (node : StateEstimationNode) (message : EstimationInput) :
    StateEstimationNode :=
  match message with
  | .compassData msg => node.processCompassMessage msg
  | .gpsData msg => node.processGPSMessage msg
  | .waypointData msg => node.processWaypointMessage msg
  | .other _ => node

/-- The method `estimateVesselState`: the node after the call and the value returned.
`Utility::limitAngleRange` and `Utility::linearFunctionBetweenAngle` are not among the sources
and enter as the parameters `limitAngleRange` and `interpolate`. -/
def estimateVesselState (limitAngleRange : ℚ → ℚ) (interpolate : ℚ → ℚ → ℚ → ℚ → ℚ → ℚ)
    (node : StateEstimationNode) : StateEstimationNode × Bool :=
  let node :=
    { node with
      m_VesselHeading := limitAngleRange (node.m_CompassHeading + node.m_WaypointDeclination) }
  if node.m_GpsOnline then
    let node := { node with m_VesselLat := node.m_GPSLat }
    let node := { node with m_VesselLon := node.m_GPSLon }
    let node := { node with m_VesselSpeed := node.m_GPSSpeed }
    let estimate := node.estimateVesselCourse
    ({ estimate.1 with m_VesselCourse := estimate.2.value interpolate }, true)
  else (node, false)

/-- The effect of one event on the node. -/
def step (limitAngleRange : ℚ → ℚ) (interpolate : ℚ → ℚ → ℚ → ℚ → ℚ → ℚ)
    (node : StateEstimationNode) : EstimationEvent → StateEstimationNode
  | .processMessage message => node.processMessage message
  | .estimateVesselState => (node.estimateVesselState limitAngleRange interpolate).1

/-- The node after a sequence of events, oldest first. -/
def run (limitAngleRange : ℚ → ℚ) (interpolate : ℚ → ℚ → ℚ → ℚ → ℚ → ℚ)
    (node : StateEstimationNode) (events : List EstimationEvent) : StateEstimationNode :=
  events.foldl (step limitAngleRange interpolate) node

end StateEstimationNode

/-- The `nextDeclination` of the last WaypointData message among the events, and `initial`
when there is none. -/
def lastNextDeclination (initial : ℚ) : List EstimationEvent → ℚ
  | [] => initial
  | .processMessage (.waypointData msg) :: events =>
    lastNextDeclination (msg.nextDeclination : ℚ) events
  | _ :: events => lastNextDeclination initial events

/-- The heading of the last CompassData message among the events, and `initial` when there is
none. -/
def lastCompassHeading (initial : ℚ) : List EstimationEvent → ℚ
  | [] => initial
  | .processMessage (.compassData msg) :: events => lastCompassHeading msg.heading events
  | _ :: events => lastCompassHeading initial events

/-! ## Line following: sequences of `getHeading` calls -/

/-- The arguments of one call of `LineFollowNode::getHeading`. -/
structure HeadingArgs where
  gpsHeading : Int
  compassHeading : Int
  gpsSpeed : ℚ
  mockPosition : Bool
  getHeadingFromCompass : Bool
  deriving DecidableEq, Repr

/-- The value of `gpsForbidden` in a call of `getHeading`:
`Utility::directionAdjustedSpeed(gpsHeading, compassHeading, gpsSpeed) < 1`. -/
def LineFollowNode.gpsForbidden (U : Utility) (args : HeadingArgs) : Bool :=
  decide (U.directionAdjustedSpeed args.gpsHeading args.compassHeading args.gpsSpeed < 1)

/-- The node after a sequence of `getHeading` calls, oldest first. -/
def LineFollowNode.getHeadingAll (U : Utility) (node : LineFollowNode)
    (calls : List HeadingArgs) : LineFollowNode :=
  calls.foldl
    (fun node args =>
      (node.getHeading U args.gpsHeading args.compassHeading args.gpsSpeed args.mockPosition
        args.getHeadingFromCompass).2)
    node

/-! ## Lemmas on the registered-node record -/

namespace RegisteredNode

theorem isInterestedLoop_iff_mem (type : MessageType) (l : List MessageType) :
    isInterestedLoop type l = true ↔ type ∈ l := by
  induction l with
  | nil => simp [isInterestedLoop]
  | cons msgType rest ih =>
    by_cases h : type = msgType
    · simp [isInterestedLoop, h]
    · simp [isInterestedLoop, h, ih]

theorem isInterested_iff_mem (r : RegisteredNode) (type : MessageType) :
    r.isInterested type = true ↔ type ∈ r.interestedList :=
  isInterestedLoop_iff_mem type r.interestedList

theorem subscribe_of_interested (r : RegisteredNode) (type : MessageType)
    (h : r.isInterested type = true) : r.subscribe type = r := by
  simp [subscribe, h]

theorem subscribe_of_not_interested (r : RegisteredNode) (type : MessageType)
    (h : r.isInterested type = false) :
    r.subscribe type = { r with interestedList := r.interestedList ++ [type] } := by
  simp [subscribe, h]

theorem mem_subscribe (r : RegisteredNode) (type x : MessageType) :
    x ∈ (r.subscribe type).interestedList ↔ x ∈ r.interestedList ∨ x = type := by
  cases h : r.isInterested type with
  | true =>
    rw [subscribe_of_interested r type h]
    constructor
    · exact Or.inl
    · rintro (hx | rfl)
      · exact hx
      · exact (isInterested_iff_mem r x).1 h
  | false =>
    rw [subscribe_of_not_interested r type h]
    simp

theorem isInterested_subscribe_self (r : RegisteredNode) (type : MessageType) :
    (r.subscribe type).isInterested type = true :=
  (isInterested_iff_mem _ _).2 ((mem_subscribe r type type).2 (Or.inr rfl))

theorem nodup_subscribe (r : RegisteredNode) (type : MessageType)
    (h : r.interestedList.Nodup) : (r.subscribe type).interestedList.Nodup := by
  cases hi : r.isInterested type with
  | true => rw [subscribe_of_interested r type hi]; exact h
  | false =>
    rw [subscribe_of_not_interested r type hi]
    have hnot : type ∉ r.interestedList := by
      intro hmem
      have := (isInterested_iff_mem r type).2 hmem
      rw [hi] at this
      exact Bool.noConfusion this
    show (r.interestedList ++ [type]).Nodup
    rw [List.nodup_append]
    refine ⟨h, List.nodup_singleton type, ?_⟩
    intro a ha hb
    rw [List.mem_singleton] at hb
    exact hnot (hb ▸ ha)

theorem nodup_subscribeAll (types : List MessageType) :
    ∀ r : RegisteredNode, r.interestedList.Nodup → (r.subscribeAll types).interestedList.Nodup := by
  induction types with
  | nil => intro r h; exact h
  | cons t ts ih =>
    intro r h
    exact ih (r.subscribe t) (nodup_subscribe r t h)

theorem mem_subscribeAll (types : List MessageType) :
    ∀ (r : RegisteredNode) (x : MessageType),
      x ∈ (r.subscribeAll types).interestedList ↔ x ∈ r.interestedList ∨ x ∈ types := by
  induction types with
  | nil => intro r x; simp [subscribeAll]
  | cons t ts ih =>
    intro r x
    show x ∈ ((r.subscribe t).subscribeAll ts).interestedList ↔ _
    rw [ih (r.subscribe t) x, mem_subscribe, List.mem_cons, or_assoc]

theorem isInterested_subscribeAll_init (node : Node) (types : List MessageType)
    (x : MessageType) :
    ((init node).subscribeAll types).isInterested x = true ↔ x ∈ types := by
  rw [isInterested_iff_mem, mem_subscribeAll]
  simp [init]

end RegisteredNode

/-! ## Properties of the registered-node record -/

/-- C1: subscribing to a message type that is already subscribed leaves the record as it is,
so a second `subscribe` of the same type changes nothing: the record, and in particular its
`interestedList`, is the one reached by the first call. -/
theorem subscribe_dedup (r : RegisteredNode) (t : MessageType) :
    (r.isInterested t = true → r.subscribe t = r) ∧
    (r.subscribe t).subscribe t = r.subscribe t ∧
    ((r.subscribe t).subscribe t).interestedList = (r.subscribe t).interestedList := by
  have h2 : (r.subscribe t).subscribe t = r.subscribe t :=
    RegisteredNode.subscribe_of_interested _ _ (RegisteredNode.isInterested_subscribe_self r t)
  exact ⟨RegisteredNode.subscribe_of_interested r t, h2, by rw [h2]⟩

theorem subscribe_dedup_witness :
    RegisteredNode.subscribe
        { nodePtr := ⟨1, NodeID.Waypoint⟩, interestedList := [MessageType.StateMessage] }
        MessageType.StateMessage
      = { nodePtr := ⟨1, NodeID.Waypoint⟩, interestedList := [MessageType.StateMessage] } :=
  (subscribe_dedup
    { nodePtr := ⟨1, NodeID.Waypoint⟩, interestedList := [MessageType.StateMessage] }
    MessageType.StateMessage).1 (by decide)

/-- C2: a freshly constructed record has an empty subscription list, after every finite
sequence of `subscribe` calls on it the list holds no message type twice, and every single
`subscribe` preserves the absence of duplicates. -/
theorem no_duplicate_subscriptions (node : Node) :
    (RegisteredNode.init node).interestedList = [] ∧
    (∀ types : List MessageType,
      ((RegisteredNode.init node).subscribeAll types).interestedList.Nodup) ∧
    (∀ (r : RegisteredNode) (t : MessageType),
      r.interestedList.Nodup → (r.subscribe t).interestedList.Nodup) :=
  ⟨rfl,
   fun types => RegisteredNode.nodup_subscribeAll types _ List.nodup_nil,
   fun r t h => RegisteredNode.nodup_subscribe r t h⟩

theorem no_duplicate_subscriptions_witness :
    (RegisteredNode.subscribe
        { nodePtr := ⟨1, NodeID.Waypoint⟩,
          interestedList := [MessageType.StateMessage, MessageType.WindData] }
        MessageType.GPSData).interestedList.Nodup :=
  (no_duplicate_subscriptions ⟨1, NodeID.Waypoint⟩).2.2
    { nodePtr := ⟨1, NodeID.Waypoint⟩,
      interestedList := [MessageType.StateMessage, MessageType.WindData] }
    MessageType.GPSData (by decide)

/-- C3: after any sequence of `subscribe` calls on a fresh record, `isInterested X` holds
exactly when `X` is one of the subscribed types. Hence a node subscribed only to `Y ≠ X` is not
interested in `X`, a node that subscribed to `X` is, and a node without subscriptions is
interested in nothing. -/
theorem isInterested_iff_subscribed (node : Node) (types : List MessageType) (X : MessageType) :
    (((RegisteredNode.init node).subscribeAll types).isInterested X = true ↔ X ∈ types) ∧
    (∀ Y : MessageType, Y ≠ X → ((RegisteredNode.init node).subscribe Y).isInterested X = false) ∧
    (((RegisteredNode.init node).subscribeAll types).subscribe X).isInterested X = true ∧
    (RegisteredNode.init node).isInterested X = false := by
  refine ⟨RegisteredNode.isInterested_subscribeAll_init node types X, ?_,
    RegisteredNode.isInterested_subscribe_self _ X, rfl⟩
  intro Y hY
  have h := RegisteredNode.isInterested_subscribeAll_init node [Y] X
  cases hi : ((RegisteredNode.init node).subscribe Y).isInterested X with
  | false => rfl
  | true =>
    have hmem : X ∈ [Y] := h.1 hi
    rw [List.mem_singleton] at hmem
    exact absurd hmem.symm hY

theorem isInterested_iff_subscribed_witness :
    ((RegisteredNode.init ⟨2, NodeID.SailingLogic⟩).subscribe MessageType.WindData).isInterested
      MessageType.StateMessage = false :=
  (isInterested_iff_subscribed ⟨2, NodeID.SailingLogic⟩ [] MessageType.StateMessage).2.1
    MessageType.WindData (by decide)

/-- C10: two sequences of `subscribe` calls on fresh records that contain the same set of
message types, in whatever order and with whatever repetitions, give records that answer
`isInterested` alike for every message type. -/
theorem isInterested_order_irrelevant (node₁ node₂ : Node) (types₁ types₂ : List MessageType)
    (hset : ∀ t : MessageType, t ∈ types₁ ↔ t ∈ types₂) (X : MessageType) :
    ((RegisteredNode.init node₁).subscribeAll types₁).isInterested X
      = ((RegisteredNode.init node₂).subscribeAll types₂).isInterested X := by
  have h₁ := RegisteredNode.isInterested_subscribeAll_init node₁ types₁ X
  have h₂ := RegisteredNode.isInterested_subscribeAll_init node₂ types₂ X
  rw [Bool.eq_iff_iff, h₁, h₂]
  exact hset X

theorem isInterested_order_irrelevant_witness :
    ((RegisteredNode.init ⟨1, NodeID.Waypoint⟩).subscribeAll
        [MessageType.GPSData, MessageType.WindData, MessageType.GPSData]).isInterested
        MessageType.WindData
      = ((RegisteredNode.init ⟨1, NodeID.Waypoint⟩).subscribeAll
        [MessageType.WindData, MessageType.GPSData]).isInterested MessageType.WindData :=
  isInterested_order_irrelevant ⟨1, NodeID.Waypoint⟩ ⟨1, NodeID.Waypoint⟩
    [MessageType.GPSData, MessageType.WindData, MessageType.GPSData]
    [MessageType.WindData, MessageType.GPSData]
    (by intro t; simp [or_comm]) MessageType.WindData

/-! ## Lemmas on StateMessage and the fixed-width encoding -/

namespace StateMessage

theorem fromDeserialiser_valid (E : Encoding) (deserialiser : MessageDeserialiser)
    (storage : StateMessage) :
    (fromDeserialiser E deserialiser storage).m_valid
      = ((Message.fromDeserialiser E deserialiser storage.toMessage).1.m_valid
          && fieldReadsSucceed E (Message.fromDeserialiser E deserialiser storage.toMessage).2
              storage) := by
  generalize hb : Message.fromDeserialiser E deserialiser storage.toMessage = base
  unfold fromDeserialiser fieldReadsSucceed
  simp only [hb]
  rcases h₁ : E.readFloat base.2 storage.m_VesselHeading with ⟨ok₁, v₁, d₁⟩
  cases ok₁ <;> simp only [h₁]
  · simp
  rcases h₂ : E.readDouble d₁ storage.m_VesselLat with ⟨ok₂, v₂, d₂⟩
  cases ok₂ <;> simp only [h₂]
  · simp
  rcases h₃ : E.readDouble d₂ storage.m_VesselLon with ⟨ok₃, v₃, d₃⟩
  cases ok₃ <;> simp only [h₃]
  · simp
  rcases h₄ : E.readDouble d₃ storage.m_VesselCourse with ⟨ok₄, v₄, d₄⟩
  cases ok₄ <;> simp only [h₄]
  · simp
  rcases h₅ : E.readDouble d₄ storage.m_VesselSpeed with ⟨ok₅, v₅, d₅⟩
  cases ok₅ <;> simp only [h₅]
  · simp
  · simp

theorem Serialise_data (E : Encoding) (m : StateMessage) (serialiser : MessageSerialiser) :
    (m.Serialise E serialiser).data
      = serialiser.data ++ (E.encodeType m.m_MessageType ++ (E.encodeNodeID m.m_SourceID ++
          (E.encodeNodeID m.m_DestinationID ++ (E.encodeFloat m.m_VesselHeading ++
          (E.encodeDouble m.m_VesselLat ++ (E.encodeDouble m.m_VesselLon ++
          (E.encodeDouble m.m_VesselCourse ++ E.encodeDouble m.m_VesselSpeed))))))) := by
  simp [Serialise, Message.Serialise, MessageSerialiser.serialise, List.append_assoc]

theorem fromDeserialiser_Serialise (E : Encoding) (m storage : StateMessage)
    (hv : m.m_valid = true) (hE : E.RoundTripsOn m) :
    fromDeserialiser E { data := (m.Serialise E { data := [] }).data } storage = m := by
  obtain ⟨hT, hS, hD, hH, hLat, hLon, hC, hSp⟩ := hE
  have hSp' := hSp []
  rw [List.append_nil] at hSp'
  rw [Serialise_data, List.nil_append]
  unfold fromDeserialiser Message.fromDeserialiser
  simp only [hT _ _, hS _ _, hD _ _, hH _ _, hLat _ _, hLon _ _, hC _ _, hSp' _]
  rcases m with ⟨⟨t, src, dst, v⟩, h, la, lo, sp, c⟩
  simp only at hv
  subst hv
  rfl

end StateMessage

theorem decodeFixed_encodeFixed (width : Nat) :
    ∀ value : Nat, value < 256 ^ width → decodeFixed (encodeFixed width value) = value := by
  induction width with
  | zero =>
    intro value h
    simp at h
    simp [encodeFixed, decodeFixed, h]
  | succ w ih =>
    intro value h
    have hlt : value / 256 < 256 ^ w := by
      apply Nat.div_lt_of_lt_mul
      rw [pow_succ] at h
      rw [Nat.mul_comm]
      exact h
    simp only [encodeFixed, decodeFixed, ih (value / 256) hlt]
    omega

theorem length_encodeFixed (width : Nat) :
    ∀ value : Nat, (encodeFixed width value).length = width := by
  induction width with
  | zero => intro value; rfl
  | succ w ih => intro value; simp [encodeFixed, ih]

theorem readFixed_encodeFixed {α : Type} (width : Nat) (decode : Nat → α) (value : Nat)
    (h : value < 256 ^ width) (rest : List Nat) (out : α) :
    readFixed width decode { data := encodeFixed width value ++ rest } out
      = (true, decode value, { data := rest }) := by
  have hlen := length_encodeFixed width value
  have hle : width ≤ (encodeFixed width value ++ rest).length := by
    rw [List.length_append, hlen]; omega
  unfold readFixed
  simp only [hle, if_true]
  rw [List.take_left' hlen, List.drop_left' hlen, decodeFixed_encodeFixed width value h]

theorem messageType_ofTag_toTag (t : MessageType) : MessageType.ofTag t.toTag = t := by
  cases t with
  | other tag =>
    show MessageType.ofTag (12 + tag) = _
    rw [Nat.add_comm]
    rfl
  | _ => rfl

theorem nodeID_ofTag_toTag (n : NodeID) : NodeID.ofTag n.toTag = n := by
  cases n with
  | other tag =>
    show NodeID.ofTag (5 + tag) = _
    rw [Nat.add_comm]
    rfl
  | _ => rfl

theorem fixedWidth_roundTripsOn (m : StateMessage) (hT : m.m_MessageType.toTag < 256)
    (hS : m.m_SourceID.toTag < 256) (hD : m.m_DestinationID.toTag < 256)
    (hH : m.m_VesselHeading < 2 ^ 32) (hLat : m.m_VesselLat < 2 ^ 64)
    (hLon : m.m_VesselLon < 2 ^ 64) (hC : m.m_VesselCourse < 2 ^ 64)
    (hSp : m.m_VesselSpeed < 2 ^ 64) : fixedWidth.RoundTripsOn m := by
  refine ⟨?_, ?_, ?_, ?_, ?_, ?_, ?_, ?_⟩
  · intro rest out
    have := readFixed_encodeFixed 1 MessageType.ofTag m.m_MessageType.toTag (by simpa using hT)
      rest out
    rw [messageType_ofTag_toTag] at this
    exact this
  · intro rest out
    have := readFixed_encodeFixed 1 NodeID.ofTag m.m_SourceID.toTag (by simpa using hS) rest out
    rw [nodeID_ofTag_toTag] at this
    exact this
  · intro rest out
    have := readFixed_encodeFixed 1 NodeID.ofTag m.m_DestinationID.toTag (by simpa using hD)
      rest out
    rw [nodeID_ofTag_toTag] at this
    exact this
  · intro rest out
    exact readFixed_encodeFixed 4 id m.m_VesselHeading (by norm_num; omega) rest out
  · intro rest out
    exact readFixed_encodeFixed 8 id m.m_VesselLat (by norm_num; omega) rest out
  · intro rest out
    exact readFixed_encodeFixed 8 id m.m_VesselLon (by norm_num; omega) rest out
  · intro rest out
    exact readFixed_encodeFixed 8 id m.m_VesselCourse (by norm_num; omega) rest out
  · intro rest out
    exact readFixed_encodeFixed 8 id m.m_VesselSpeed (by norm_num; omega) rest out

theorem readFixed_ok {α : Type} (width : Nat) (decode : Nat → α) (d : MessageDeserialiser)
    (out : α) (h : (readFixed width decode d out).1 = true) :
    (readFixed width decode d out).2.2.data.length + width = d.data.length := by
  unfold readFixed at h ⊢
  by_cases hle : width ≤ d.data.length
  · simp only [hle, if_true, List.length_drop]
    omega
  · simp [hle] at h

theorem Message.fromDeserialiser_fixedWidth_length (d : MessageDeserialiser) (storage : Message)
    (h : (Message.fromDeserialiser fixedWidth d storage).1.m_valid = true) :
    (Message.fromDeserialiser fixedWidth d storage).2.data.length + 3 = d.data.length := by
  unfold Message.fromDeserialiser at h ⊢
  rcases h₁ : fixedWidth.readType d storage.m_MessageType with ⟨ok₁, v₁, d₁⟩
  have e₁ := readFixed_ok 1 MessageType.ofTag d storage.m_MessageType
  rw [show readFixed 1 MessageType.ofTag d storage.m_MessageType
        = fixedWidth.readType d storage.m_MessageType from rfl, h₁] at e₁
  simp only [h₁] at h ⊢
  cases ok₁
  · simp at h
  rcases h₂ : fixedWidth.readNodeID d₁ storage.m_SourceID with ⟨ok₂, v₂, d₂⟩
  have e₂ := readFixed_ok 1 NodeID.ofTag d₁ storage.m_SourceID
  rw [show readFixed 1 NodeID.ofTag d₁ storage.m_SourceID
        = fixedWidth.readNodeID d₁ storage.m_SourceID from rfl, h₂] at e₂
  simp only [h₂] at h ⊢
  cases ok₂
  · simp at h
  rcases h₃ : fixedWidth.readNodeID d₂ storage.m_DestinationID with ⟨ok₃, v₃, d₃⟩
  have e₃ := readFixed_ok 1 NodeID.ofTag d₂ storage.m_DestinationID
  rw [show readFixed 1 NodeID.ofTag d₂ storage.m_DestinationID
        = fixedWidth.readNodeID d₂ storage.m_DestinationID from rfl, h₃] at e₃
  simp only [h₃] at h ⊢
  cases ok₃
  · simp at h
  have a₁ := e₁ rfl
  have a₂ := e₂ rfl
  have a₃ := e₃ rfl
  simp only at a₁ a₂ a₃ ⊢
  omega

theorem StateMessage.fieldReadsSucceed_fixedWidth_length (d₀ : MessageDeserialiser)
    (storage : StateMessage) (h : StateMessage.fieldReadsSucceed fixedWidth d₀ storage = true) :
    36 ≤ d₀.data.length := by
  simp only [StateMessage.fieldReadsSucceed, fixedWidth, Bool.and_eq_true] at h
  obtain ⟨⟨⟨⟨h₁, h₂⟩, h₃⟩, h₄⟩, h₅⟩ := h
  have a₁ := readFixed_ok 4 id d₀ storage.m_VesselHeading h₁
  generalize readFixed 4 id d₀ storage.m_VesselHeading = r₁ at *
  have a₂ := readFixed_ok 8 id r₁.2.2 storage.m_VesselLat h₂
  generalize readFixed 8 id r₁.2.2 storage.m_VesselLat = r₂ at *
  have a₃ := readFixed_ok 8 id r₂.2.2 storage.m_VesselLon h₃
  generalize readFixed 8 id r₂.2.2 storage.m_VesselLon = r₃ at *
  have a₄ := readFixed_ok 8 id r₃.2.2 storage.m_VesselCourse h₄
  generalize readFixed 8 id r₃.2.2 storage.m_VesselCourse = r₄ at *
  have a₅ := readFixed_ok 8 id r₄.2.2 storage.m_VesselSpeed h₅
  omega

theorem StateMessage.fromDeserialiser_fixedWidth_short (bytes : List Nat)
    (storage : StateMessage) (h : bytes.length < 39) :
    (StateMessage.fromDeserialiser fixedWidth { data := bytes } storage).m_valid = false := by
  rw [StateMessage.fromDeserialiser_valid]
  cases hv : (Message.fromDeserialiser fixedWidth { data := bytes } storage.toMessage).1.m_valid
  · rfl
  · have a := Message.fromDeserialiser_fixedWidth_length _ _ hv
    cases hf : StateMessage.fieldReadsSucceed fixedWidth
        (Message.fromDeserialiser fixedWidth { data := bytes } storage.toMessage).2 storage
    · rfl
    · have b := StateMessage.fieldReadsSucceed_fixedWidth_length _ _ hf
      simp only at a
      omega

/-! ## Properties of StateMessage -/

/-- C4: for every StateMessage `m` built by one of the two value constructors, decoding with
the deserialising constructor the bytes that `m.Serialise` wrote gives a message with
`valid == true` whose heading, latitude, longitude, speed and course, and whose type, source
and destination, are those of `m`, provided each single-field serialise/read pair round-trips
on the fields of `m`. -/
theorem StateMessage_roundTrip (E : Encoding) (m storage : StateMessage)
    (hm : (∃ destinationID sourceID compassHeading lat lon gpsSpeed gpsCourse,
            m = StateMessage.init destinationID sourceID compassHeading lat lon gpsSpeed
              gpsCourse) ∨
          (∃ compassHeading lat lon gpsSpeed gpsCourse,
            m = StateMessage.initBroadcast compassHeading lat lon gpsSpeed gpsCourse))
    (hE : E.RoundTripsOn m) :
    (StateMessage.fromDeserialiser E { data := (m.Serialise E { data := [] }).data }
        storage).m_valid = true ∧
    (StateMessage.fromDeserialiser E { data := (m.Serialise E { data := [] }).data }
        storage).heading = m.heading ∧
    (StateMessage.fromDeserialiser E { data := (m.Serialise E { data := [] }).data }
        storage).latitude = m.latitude ∧
    (StateMessage.fromDeserialiser E { data := (m.Serialise E { data := [] }).data }
        storage).longitude = m.longitude ∧
    (StateMessage.fromDeserialiser E { data := (m.Serialise E { data := [] }).data }
        storage).speed = m.speed ∧
    (StateMessage.fromDeserialiser E { data := (m.Serialise E { data := [] }).data }
        storage).course = m.course ∧
    (StateMessage.fromDeserialiser E { data := (m.Serialise E { data := [] }).data }
        storage).m_MessageType = m.m_MessageType ∧
    (StateMessage.fromDeserialiser E { data := (m.Serialise E { data := [] }).data }
        storage).m_SourceID = m.m_SourceID ∧
    (StateMessage.fromDeserialiser E { data := (m.Serialise E { data := [] }).data }
        storage).m_DestinationID = m.m_DestinationID := by
  have hv : m.m_valid = true := by
    rcases hm with ⟨_, _, _, _, _, _, _, rfl⟩ | ⟨_, _, _, _, _, rfl⟩ <;> rfl
  rw [StateMessage.fromDeserialiser_Serialise E m storage hv hE]
  exact ⟨hv, rfl, rfl, rfl, rfl, rfl, rfl, rfl, rfl⟩

theorem StateMessage_roundTrip_witness :
    (StateMessage.fromDeserialiser fixedWidth
        { data := ((StateMessage.init NodeID.Waypoint NodeID.StateEstimation
            1119092736 4633260481411531256 4626322717216342016 4609434218613702656
            4640537203540230144).Serialise fixedWidth { data := [] }).data }
        (StateMessage.initBroadcast 0 0 0 0 0)).m_valid = true ∧
    (StateMessage.fromDeserialiser fixedWidth
        { data := ((StateMessage.init NodeID.Waypoint NodeID.StateEstimation
            1119092736 4633260481411531256 4626322717216342016 4609434218613702656
            4640537203540230144).Serialise fixedWidth { data := [] }).data }
        (StateMessage.initBroadcast 0 0 0 0 0)).speed = 4609434218613702656 :=
  have h := StateMessage_roundTrip fixedWidth
    (StateMessage.init NodeID.Waypoint NodeID.StateEstimation
      1119092736 4633260481411531256 4626322717216342016 4609434218613702656
      4640537203540230144)
    (StateMessage.initBroadcast 0 0 0 0 0)
    (Or.inl ⟨_, _, _, _, _, _, _, rfl⟩)
    (fixedWidth_roundTripsOn _ (by decide) (by decide) (by decide)
      (by norm_num [StateMessage.init]) (by norm_num [StateMessage.init])
      (by norm_num [StateMessage.init]) (by norm_num [StateMessage.init])
      (by norm_num [StateMessage.init]))
  ⟨h.1, h.2.2.2.2.1⟩

/-- C5: the deserialising constructor is a total function (it raises nothing); the message it
builds is invalid whenever one of its five field reads (heading, latitude, longitude, course,
speed) fails, and when all five succeed its validity is the one the header decode established.
With the fixed-width byte format a buffer shorter than the 39 bytes of a full message always
gives an invalid message. -/
theorem StateMessage_truncation_safety (E : Encoding) (deserialiser : MessageDeserialiser)
    (storage : StateMessage) :
    (StateMessage.fieldReadsSucceed E
        (Message.fromDeserialiser E deserialiser storage.toMessage).2 storage = false →
      (StateMessage.fromDeserialiser E deserialiser storage).m_valid = false) ∧
    (StateMessage.fieldReadsSucceed E
        (Message.fromDeserialiser E deserialiser storage.toMessage).2 storage = true →
      (StateMessage.fromDeserialiser E deserialiser storage).m_valid
        = (Message.fromDeserialiser E deserialiser storage.toMessage).1.m_valid) ∧
    (deserialiser.data.length < 39 →
      (StateMessage.fromDeserialiser fixedWidth deserialiser storage).m_valid = false) := by
  refine ⟨?_, ?_, ?_⟩
  · intro h
    rw [StateMessage.fromDeserialiser_valid, h, Bool.and_false]
  · intro h
    rw [StateMessage.fromDeserialiser_valid, h, Bool.and_true]
  · intro h
    exact StateMessage.fromDeserialiser_fixedWidth_short deserialiser.data storage h

theorem StateMessage_truncation_safety_witness :
    (StateMessage.fromDeserialiser fixedWidth { data := [7, 0, 0, 0, 0, 128, 63, 1, 2] }
      (StateMessage.initBroadcast 0 0 0 0 0)).m_valid = false :=
  (StateMessage_truncation_safety fixedWidth { data := [7, 0, 0, 0, 0, 128, 63, 1, 2] }
    (StateMessage.initBroadcast 0 0 0 0 0)).1 (by decide)

/-- C6, as stated, fails: with the fixed-width byte format the bytes `Serialise` writes for a
message of speed `1.0` and course `90.0` differ from the bytes of the declaration order. -/
theorem Serialise_declarationOrder_counterexample :
    (StateMessage.initBroadcast 0 0 0 4607182418800017408 4636033603912859648).Serialise
        fixedWidth { data := [] }
      ≠ (StateMessage.initBroadcast 0 0 0 4607182418800017408
          4636033603912859648).serialiseDeclarationOrder fixedWidth { data := [] } := by
  decide

/-- C6, amended: `Serialise` appends the header (type, source, destination) and then the
payload in the order heading, latitude, longitude, course, speed, which is the order in which
the deserialising constructor reads; course precedes speed, unlike in the declaration. -/
theorem Serialise_field_order (E : Encoding) (m : StateMessage) (serialiser : MessageSerialiser) :
    (m.Serialise E serialiser).data
      = serialiser.data ++ E.encodeType m.m_MessageType ++ E.encodeNodeID m.m_SourceID
          ++ E.encodeNodeID m.m_DestinationID ++ E.encodeFloat m.heading
          ++ E.encodeDouble m.latitude ++ E.encodeDouble m.longitude
          ++ E.encodeDouble m.course ++ E.encodeDouble m.speed := by
  rw [StateMessage.Serialise_data]
  simp [StateMessage.heading, StateMessage.latitude, StateMessage.longitude,
    StateMessage.course, StateMessage.speed, List.append_assoc]


/-! ## Lemmas on the message bus -/

namespace MessageBus

theorem findByIdentity_eq_none (id : NodeID) (l : List RegisteredNode)
    (h : ∀ r ∈ l, r.nodePtr.nodeID ≠ id) : findByIdentity id l = none := by
  induction l with
  | nil => rfl
  | cons r rest ih =>
    have hr : r.nodePtr.nodeID ≠ id := h r (List.mem_cons_self r rest)
    simp only [findByIdentity, hr, if_false]
    exact ih (fun r' hr' => h r' (List.mem_cons_of_mem r hr'))

theorem findByIdentity_of_mem (id : NodeID) (l : List RegisteredNode)
    (h : ∃ r ∈ l, r.nodePtr.nodeID = id) :
    ∃ r ∈ l, r.nodePtr.nodeID = id ∧ findByIdentity id l = some r := by
  induction l with
  | nil =>
    obtain ⟨r, hr, _⟩ := h
    exact absurd hr (List.not_mem_nil r)
  | cons a rest ih =>
    by_cases ha : a.nodePtr.nodeID = id
    · exact ⟨a, List.mem_cons_self a rest, ha, by simp [findByIdentity, ha]⟩
    · obtain ⟨r, hr, hid⟩ := h
      rcases List.mem_cons.1 hr with rfl | hr'
      · exact absurd hid ha
      · obtain ⟨r', hmem', hid', hfind⟩ := ih ⟨r, hr', hid⟩
        exact ⟨r', List.mem_cons_of_mem a hmem', hid', by simp [findByIdentity, ha, hfind]⟩

theorem findByIdentity_nodePtr_congr (id : NodeID) :
    ∀ l l' : List RegisteredNode, l.map (·.nodePtr) = l'.map (·.nodePtr) →
      (findByIdentity id l).map (·.nodePtr) = (findByIdentity id l').map (·.nodePtr) := by
  intro l
  induction l with
  | nil =>
    intro l' h
    cases l' with
    | nil => rfl
    | cons b rest' => simp at h
  | cons a rest ih =>
    intro l' h
    cases l' with
    | nil => simp at h
    | cons b rest' =>
      simp only [List.map_cons, List.cons.injEq] at h
      obtain ⟨hab, hrest⟩ := h
      by_cases ha : a.nodePtr.nodeID = id
      · have hb : b.nodePtr.nodeID = id := by rw [← hab]; exact ha
        simp [findByIdentity, ha, hb, hab]
      · have hb : ¬ b.nodePtr.nodeID = id := by rw [← hab]; exact ha
        simp only [findByIdentity, ha, hb, if_false]
        exact ih rest' hrest

theorem dispatch_of_destination (bus : MessageBus) (msg : Message)
    (hdst : msg.m_DestinationID ≠ NodeID.None) :
    bus.dispatch msg
      = ((findByIdentity msg.m_DestinationID bus.m_RegisteredNodes).map (·.nodePtr)).toList := by
  unfold dispatch
  rw [if_pos hdst]
  cases findByIdentity msg.m_DestinationID bus.m_RegisteredNodes <;> rfl

theorem findRegisteredNode_eq_none (node : Node) (l : List RegisteredNode)
    (h : ∀ r ∈ l, r.nodePtr.addr ≠ node.addr) : findRegisteredNode node l = none := by
  induction l with
  | nil => rfl
  | cons r rest ih =>
    have hr : r.nodePtr.addr ≠ node.addr := h r (List.mem_cons_self r rest)
    simp only [findRegisteredNode, hr, if_false]
    rw [ih (fun r' hr' => h r' (List.mem_cons_of_mem r hr'))]
    rfl

theorem findRegisteredNode_of_mem (node : Node) (l : List RegisteredNode)
    (h : ∃ r ∈ l, r.nodePtr.addr = node.addr) :
    ∃ i r, findRegisteredNode node l = some i ∧ l[i]? = some r ∧ r.nodePtr.addr = node.addr := by
  induction l with
  | nil =>
    obtain ⟨r, hr, _⟩ := h
    exact absurd hr (List.not_mem_nil r)
  | cons a rest ih =>
    by_cases ha : a.nodePtr.addr = node.addr
    · exact ⟨0, a, by simp [findRegisteredNode, ha], by simp, ha⟩
    · obtain ⟨r, hr, hid⟩ := h
      rcases List.mem_cons.1 hr with rfl | hr'
      · exact absurd hid ha
      · obtain ⟨i, r', hfind, hget, haddr⟩ := ih ⟨r, hr', hid⟩
        exact ⟨i + 1, r', by simp [findRegisteredNode, ha, hfind], by simpa using hget, haddr⟩

theorem findRegisteredNode_append_init (node : Node) (l : List RegisteredNode) :
    ∃ i, findRegisteredNode node (l ++ [RegisteredNode.init node]) = some i := by
  obtain ⟨i, _, h, _⟩ := findRegisteredNode_of_mem node (l ++ [RegisteredNode.init node])
    ⟨RegisteredNode.init node, by simp, rfl⟩
  exact ⟨i, h⟩

theorem registerNode_of_mem (bus : MessageBus) (node : Node)
    (h : ∃ r ∈ bus.m_RegisteredNodes, r.nodePtr.addr = node.addr) :
    bus.registerNode node = bus := by
  obtain ⟨i, _, hfind, _⟩ := findRegisteredNode_of_mem node bus.m_RegisteredNodes h
  simp [registerNode, getRegisteredNode, hfind]

theorem registerNode_registerNode (bus : MessageBus) (node : Node) :
    (bus.registerNode node).registerNode node = bus.registerNode node := by
  apply registerNode_of_mem
  unfold registerNode getRegisteredNode
  cases hfind : findRegisteredNode node bus.m_RegisteredNodes with
  | some i =>
    by_cases hreg : ∃ r ∈ bus.m_RegisteredNodes, r.nodePtr.addr = node.addr
    · exact hreg
    · have hnone := findRegisteredNode_eq_none node bus.m_RegisteredNodes
        (fun r hr haddr => hreg ⟨r, hr, haddr⟩)
      rw [hnone] at hfind
      exact Option.noConfusion hfind
  | none => exact ⟨RegisteredNode.init node, by simp, rfl⟩

theorem fifoDeliveries_append (bus : MessageBus) (msgs msgs' : List Message) :
    bus.fifoDeliveries (msgs ++ msgs') = bus.fifoDeliveries msgs ++ bus.fifoDeliveries msgs' := by
  induction msgs with
  | nil => rfl
  | cons m rest ih => simp [fifoDeliveries, ih, List.append_assoc]

theorem runStep_deliveries (bus : MessageBus) (st : RunState) :
    (bus.runStep st).delivered ++ bus.pendingDeliveries (bus.runStep st)
      = st.delivered ++ bus.pendingDeliveries st := by
  rcases st with ⟨queue, current, delivered⟩
  cases current with
  | some c =>
    rcases c with ⟨msg, nodes⟩
    cases nodes with
    | nil => simp [runStep, pendingDeliveries]
    | cons node rest => simp [runStep, pendingDeliveries, List.append_assoc]
  | none =>
    cases queue with
    | nil => simp [runStep, pendingDeliveries]
    | cons msg queue => simp [runStep, pendingDeliveries, fifoDeliveries]

theorem sendMessage_deliveries (bus : MessageBus) (st : RunState) (msg : Message) :
    (sendMessage st msg).delivered ++ bus.pendingDeliveries (sendMessage st msg)
      = st.delivered ++ bus.pendingDeliveries st ++ bus.fifoDeliveries [msg] := by
  simp [sendMessage, pendingDeliveries, fifoDeliveries_append, List.append_assoc]

theorem exec_deliveries (bus : MessageBus) (events : List BusEvent) :
    ∀ st : RunState,
      (bus.exec st events).delivered ++ bus.pendingDeliveries (bus.exec st events)
        = st.delivered ++ bus.pendingDeliveries st ++ bus.fifoDeliveries (sentMessages events) := by
  induction events with
  | nil => intro st; simp [exec, sentMessages, fifoDeliveries]
  | cons e rest ih =>
    intro st
    show (bus.exec (bus.step st e) rest).delivered
        ++ bus.pendingDeliveries (bus.exec (bus.step st e) rest) = _
    rw [ih (bus.step st e)]
    cases e with
    | sendMessage msg =>
      show (sendMessage st msg).delivered ++ bus.pendingDeliveries (sendMessage st msg) ++ _ = _
      rw [sendMessage_deliveries]
      simp [sentMessages, fifoDeliveries, List.append_assoc]
    | runStep =>
      show (bus.runStep st).delivered ++ bus.pendingDeliveries (bus.runStep st) ++ _ = _
      rw [runStep_deliveries]
      rfl

theorem remainingSteps_runStep (bus : MessageBus) (st : RunState) :
    bus.remainingSteps (bus.runStep st) = bus.remainingSteps st - 1 := by
  rcases st with ⟨queue, current, delivered⟩
  cases current with
  | some c =>
    rcases c with ⟨msg, nodes⟩
    cases nodes with
    | nil => simp [runStep, remainingSteps]
    | cons node rest =>
      simp only [runStep, remainingSteps, List.length_cons]
      omega
  | none =>
    cases queue with
    | nil => simp [runStep, remainingSteps]
    | cons msg queue =>
      simp only [runStep, remainingSteps, List.map_cons, List.sum_cons]
      omega

theorem pendingDeliveries_of_remainingSteps_zero (bus : MessageBus) (st : RunState)
    (h : bus.remainingSteps st = 0) : bus.pendingDeliveries st = [] := by
  rcases st with ⟨queue, current, delivered⟩
  cases current with
  | some c =>
    rcases c with ⟨msg, nodes⟩
    simp only [remainingSteps] at h
    omega
  | none =>
    cases queue with
    | nil => rfl
    | cons msg queue =>
      simp only [remainingSteps, List.map_cons, List.sum_cons] at h
      omega

theorem exec_runSteps_drains (bus : MessageBus) (n : Nat) :
    ∀ st : RunState, bus.remainingSteps st ≤ n →
      (bus.exec st (List.replicate n BusEvent.runStep)).delivered
        = st.delivered ++ bus.pendingDeliveries st := by
  induction n with
  | zero =>
    intro st h
    rw [pendingDeliveries_of_remainingSteps_zero bus st (Nat.le_zero.1 h)]
    simp [exec]
  | succ k ih =>
    intro st h
    show (bus.exec (bus.runStep st) (List.replicate k BusEvent.runStep)).delivered = _
    rw [ih (bus.runStep st) (by rw [remainingSteps_runStep]; omega), runStep_deliveries]

end MessageBus

/-! ## Properties of the message bus -/

/-- C7: a message with a destination is dispatched to exactly one node, a registered node of
that identity, whenever one is registered, and that is the node of that identity when only one
is registered; it is dispatched to no node when no registered node has the identity; and the
nodes it is dispatched to do not depend on what any node subscribed to. -/
theorem dispatch_direct_delivery (bus : MessageBus) (msg : Message)
    (hdst : msg.m_DestinationID ≠ NodeID.None) :
    ((∃ r ∈ bus.m_RegisteredNodes, r.nodePtr.nodeID = msg.m_DestinationID) →
      ∃ r ∈ bus.m_RegisteredNodes, r.nodePtr.nodeID = msg.m_DestinationID ∧
        bus.dispatch msg = [r.nodePtr]) ∧
    (∀ r ∈ bus.m_RegisteredNodes, r.nodePtr.nodeID = msg.m_DestinationID →
      (∀ r' ∈ bus.m_RegisteredNodes, r'.nodePtr.nodeID = msg.m_DestinationID →
        r'.nodePtr = r.nodePtr) →
      bus.dispatch msg = [r.nodePtr]) ∧
    ((∀ r ∈ bus.m_RegisteredNodes, r.nodePtr.nodeID ≠ msg.m_DestinationID) →
      bus.dispatch msg = []) ∧
    (∀ bus' : MessageBus,
      bus'.m_RegisteredNodes.map (·.nodePtr) = bus.m_RegisteredNodes.map (·.nodePtr) →
      bus'.dispatch msg = bus.dispatch msg) := by
  have key : (∃ r ∈ bus.m_RegisteredNodes, r.nodePtr.nodeID = msg.m_DestinationID) →
      ∃ r ∈ bus.m_RegisteredNodes, r.nodePtr.nodeID = msg.m_DestinationID ∧
        bus.dispatch msg = [r.nodePtr] := by
    intro h
    obtain ⟨r, hr, hid, hfind⟩ := MessageBus.findByIdentity_of_mem _ _ h
    exact ⟨r, hr, hid, by rw [MessageBus.dispatch_of_destination bus msg hdst, hfind]; rfl⟩
  refine ⟨key, ?_, ?_, ?_⟩
  · intro r hr hid huniq
    obtain ⟨r', hr', hid', hdisp⟩ := key ⟨r, hr, hid⟩
    rw [hdisp, huniq r' hr' hid']
  · intro h
    rw [MessageBus.dispatch_of_destination bus msg hdst, MessageBus.findByIdentity_eq_none _ _ h]
    rfl
  · intro bus' h
    rw [MessageBus.dispatch_of_destination bus msg hdst,
      MessageBus.dispatch_of_destination bus' msg hdst,
      MessageBus.findByIdentity_nodePtr_congr _ _ _ h]

theorem dispatch_direct_delivery_witness :
    MessageBus.dispatch
        { m_Running := true,
          m_RegisteredNodes := [RegisteredNode.init ⟨1, NodeID.Waypoint⟩,
            { nodePtr := ⟨2, NodeID.SailingLogic⟩, interestedList := [MessageType.WindData] }] }
        (Message.init MessageType.StateMessage NodeID.StateEstimation NodeID.Waypoint)
      = [⟨1, NodeID.Waypoint⟩] :=
  (dispatch_direct_delivery
    { m_Running := true,
      m_RegisteredNodes := [RegisteredNode.init ⟨1, NodeID.Waypoint⟩,
        { nodePtr := ⟨2, NodeID.SailingLogic⟩, interestedList := [MessageType.WindData] }] }
    (Message.init MessageType.StateMessage NodeID.StateEstimation NodeID.Waypoint)
    (by decide)).2.1 (RegisteredNode.init ⟨1, NodeID.Waypoint⟩) (by decide) (by decide)
    (by decide)

/-- C8: `registerNode` is idempotent; registering a node that is already registered leaves
the bus, hence the number of records and every subscription list, as it was, and
`getRegisteredNode` then returns an existing record of that node pointer; for a node pointer
that is not registered `getRegisteredNode` appends exactly one record, whose subscription list
is empty, and returns it. -/
theorem registerNode_idempotent (bus : MessageBus) (node : Node) :
    (bus.registerNode node).registerNode node = bus.registerNode node ∧
    ((∃ r ∈ bus.m_RegisteredNodes, r.nodePtr.addr = node.addr) →
      bus.registerNode node = bus ∧
      ∃ i r, bus.getRegisteredNode node = (bus, i) ∧ bus.m_RegisteredNodes[i]? = some r ∧
        r.nodePtr.addr = node.addr) ∧
    ((∀ r ∈ bus.m_RegisteredNodes, r.nodePtr.addr ≠ node.addr) →
      bus.getRegisteredNode node
        = ({ bus with m_RegisteredNodes := bus.m_RegisteredNodes ++ [RegisteredNode.init node] },
            bus.m_RegisteredNodes.length) ∧
      (bus.getRegisteredNode node).1.m_RegisteredNodes[(bus.getRegisteredNode node).2]?
        = some (RegisteredNode.init node) ∧
      (RegisteredNode.init node).interestedList = []) := by
  refine ⟨MessageBus.registerNode_registerNode bus node, ?_, ?_⟩
  · intro h
    refine ⟨MessageBus.registerNode_of_mem bus node h, ?_⟩
    obtain ⟨i, r, hfind, hget, haddr⟩ := MessageBus.findRegisteredNode_of_mem node _ h
    exact ⟨i, r, by simp [MessageBus.getRegisteredNode, hfind], hget, haddr⟩
  · intro h
    have hnone := MessageBus.findRegisteredNode_eq_none node _ h
    have hget : bus.getRegisteredNode node
        = ({ bus with m_RegisteredNodes := bus.m_RegisteredNodes ++ [RegisteredNode.init node] },
            bus.m_RegisteredNodes.length) := by
      simp [MessageBus.getRegisteredNode, hnone]
    refine ⟨hget, ?_, rfl⟩
    rw [hget]
    simp

theorem registerNode_idempotent_witness :
    MessageBus.registerNode
        { m_Running := false,
          m_RegisteredNodes :=
            [{ nodePtr := ⟨1, NodeID.Waypoint⟩, interestedList := [MessageType.StateMessage] }] }
        ⟨1, NodeID.Waypoint⟩
      = { m_Running := false,
          m_RegisteredNodes :=
            [{ nodePtr := ⟨1, NodeID.Waypoint⟩, interestedList := [MessageType.StateMessage] }] } :=
  ((registerNode_idempotent
    { m_Running := false,
      m_RegisteredNodes :=
        [{ nodePtr := ⟨1, NodeID.Waypoint⟩, interestedList := [MessageType.StateMessage] }] }
    ⟨1, NodeID.Waypoint⟩).2.1
    ⟨{ nodePtr := ⟨1, NodeID.Waypoint⟩, interestedList := [MessageType.StateMessage] },
      by decide, rfl⟩).1

/-- C9: whatever the interleaving of completed `sendMessage` calls and dispatcher steps, the
invocations of `processMessage` made so far are an initial part of the first-in first-out
sequence (every invocation for the message sent first, then every invocation for the next
one, and so on), so that no message overtakes another, none is delivered twice and none is
skipped; and once nothing more is sent, finitely many further steps of `run()` complete that
sequence, so that no message is lost from the queue. -/
theorem run_fifo_ordering (bus : MessageBus) (events : List BusEvent) :
    (bus.exec RunState.init events).delivered
        <+: bus.fifoDeliveries (MessageBus.sentMessages events) ∧
    (∀ M₁ M₂ : Message, bus.fifoDeliveries [M₁, M₂]
        = (bus.dispatch M₁).map (fun node => (node, M₁))
          ++ (bus.dispatch M₂).map (fun node => (node, M₂))) ∧
    ∃ n : Nat,
      (bus.exec (bus.exec RunState.init events) (List.replicate n BusEvent.runStep)).delivered
        = bus.fifoDeliveries (MessageBus.sentMessages events) := by
  have hinv := MessageBus.exec_deliveries bus events RunState.init
  have hinit : RunState.init.delivered ++ bus.pendingDeliveries RunState.init = [] := rfl
  rw [hinit, List.nil_append] at hinv
  refine ⟨⟨_, hinv⟩, ?_, bus.remainingSteps (bus.exec RunState.init events), ?_⟩
  · intro M₁ M₂
    simp [MessageBus.fifoDeliveries]
  · rw [MessageBus.exec_runSteps_drains bus _ _ (Nat.le_refl _), hinv]


/-! ## Properties of the StateMessage constructors -/

/-- C11: a StateMessage built by the five-argument constructor has the type
`MessageType::StateMessage`, the source `NodeID::None` and the destination `NodeID::None`. -/
theorem StateMessage_initBroadcast_header (compassHeading lat lon gpsSpeed gpsCourse : Nat) :
    (StateMessage.initBroadcast compassHeading lat lon gpsSpeed gpsCourse).m_MessageType
      = MessageType.StateMessage ∧
    (StateMessage.initBroadcast compassHeading lat lon gpsSpeed gpsCourse).m_SourceID
      = NodeID.None ∧
    (StateMessage.initBroadcast compassHeading lat lon gpsSpeed gpsCourse).m_DestinationID
      = NodeID.None :=
  ⟨rfl, rfl, rfl⟩

/-- C12: the message built by `StateMessage(destinationID, sourceID, compassHeading, lat, lon,
gpsSpeed, gpsCourse)` has the type `StateMessage`, the destination given first and the source
given second, and its accessors `heading`, `latitude`, `longitude`, `speed`, `course` return
`compassHeading`, `lat`, `lon`, `gpsSpeed`, `gpsCourse`. -/
theorem StateMessage_init_fields (destinationID sourceID : NodeID)
    (compassHeading lat lon gpsSpeed gpsCourse : Nat) :
    (StateMessage.init destinationID sourceID compassHeading lat lon gpsSpeed
        gpsCourse).m_MessageType = MessageType.StateMessage ∧
    (StateMessage.init destinationID sourceID compassHeading lat lon gpsSpeed
        gpsCourse).m_DestinationID = destinationID ∧
    (StateMessage.init destinationID sourceID compassHeading lat lon gpsSpeed
        gpsCourse).m_SourceID = sourceID ∧
    (StateMessage.init destinationID sourceID compassHeading lat lon gpsSpeed
        gpsCourse).heading = compassHeading ∧
    (StateMessage.init destinationID sourceID compassHeading lat lon gpsSpeed
        gpsCourse).latitude = lat ∧
    (StateMessage.init destinationID sourceID compassHeading lat lon gpsSpeed
        gpsCourse).longitude = lon ∧
    (StateMessage.init destinationID sourceID compassHeading lat lon gpsSpeed
        gpsCourse).speed = gpsSpeed ∧
    (StateMessage.init destinationID sourceID compassHeading lat lon gpsSpeed
        gpsCourse).course = gpsCourse :=
  ⟨rfl, rfl, rfl, rfl, rfl, rfl, rfl, rfl⟩

/-! ## Properties of the node initialisation -/

/-- C14: `initialiseNode` ends the program, with exit code 1, exactly when `node.init()`
returns false and the importance is `CRITICAL`; it returns to its caller exactly when
`init()` succeeds or the node is `NOT_CRITICAL`. -/
theorem initialiseNode_exit (initResult : Bool) (nodeName : String)
    (importance : NodeImportance) :
    ((initialiseNode initResult nodeName importance).2 = some 1 ↔
      initResult = false ∧ importance = NodeImportance.CRITICAL) ∧
    ((initialiseNode initResult nodeName importance).2 = none ↔
      initResult = true ∨ importance = NodeImportance.NOT_CRITICAL) ∧
    ((initialiseNode initResult nodeName importance).2 = some 1 ∨
      (initialiseNode initResult nodeName importance).2 = none) := by
  cases initResult <;> cases importance <;> simp [initialiseNode]


/-! ## Properties of the state estimation -/

namespace StateEstimationNode

theorem orderSpeeds_le (node : StateEstimationNode) :
    node.orderSpeeds.m_speed_1 ≤ node.orderSpeeds.m_speed_2 := by
  unfold orderSpeeds
  by_cases h : node.m_speed_1 > node.m_speed_2
  · simp [h]
  · simp only [h, if_false]
    exact not_lt.1 h

theorem orderSpeeds_members (node : StateEstimationNode) :
    node.orderSpeeds.m_speed_2 = node.m_speed_2 ∧
    node.orderSpeeds.m_VesselSpeed = node.m_VesselSpeed ∧
    node.orderSpeeds.m_VesselHeading = node.m_VesselHeading ∧
    node.orderSpeeds.m_GPSCourse = node.m_GPSCourse := by
  unfold orderSpeeds
  by_cases h : node.m_speed_1 > node.m_speed_2 <;> simp [h]

theorem estimateVesselCourse_node (node : StateEstimationNode) :
    node.estimateVesselCourse.1 = node.orderSpeeds := by
  unfold estimateVesselCourse
  simp only []
  split_ifs <;> rfl

theorem estimateVesselCourse_heading (node : StateEstimationNode)
    (h : node.m_VesselSpeed < node.orderSpeeds.m_speed_1) :
    node.estimateVesselCourse.2 = CourseEstimate.vesselHeading node.m_VesselHeading := by
  obtain ⟨_, hs, hh, _⟩ := orderSpeeds_members node
  unfold estimateVesselCourse
  simp only [hs, hh, h, if_true]

theorem estimateVesselCourse_gpsCourse (node : StateEstimationNode)
    (h : node.m_speed_2 ≤ node.m_VesselSpeed) :
    node.estimateVesselCourse.2 = CourseEstimate.gpsCourse node.m_GPSCourse := by
  obtain ⟨h2, hs, _, hc⟩ := orderSpeeds_members node
  have hle := orderSpeeds_le node
  rw [h2] at hle
  have hnot : ¬ node.m_VesselSpeed < node.orderSpeeds.m_speed_1 := not_lt.2 (le_trans hle h)
  unfold estimateVesselCourse
  simp only [hs, h2, hc, hnot, if_false, ge_iff_le, h, if_true]

theorem estimateVesselCourse_interpolated (node : StateEstimationNode)
    (h₁ : node.orderSpeeds.m_speed_1 ≤ node.m_VesselSpeed)
    (h₂ : node.m_VesselSpeed < node.m_speed_2) :
    node.estimateVesselCourse.2
      = CourseEstimate.linearFunctionBetweenAngle node.m_VesselSpeed node.orderSpeeds.m_speed_1
          node.m_speed_2 node.m_VesselHeading node.m_GPSCourse := by
  obtain ⟨h2, hs, hh, hc⟩ := orderSpeeds_members node
  unfold estimateVesselCourse
  simp only [hs, h2, hh, hc, not_lt.2 h₁, if_false, ge_iff_le, not_le.2 h₂]

end StateEstimationNode

/-- C19: `estimateVesselCourse` selects the course by the speed band. With `m_speed_1` as the
call leaves it (the stored value, whenever that is at most `m_speed_2`), it returns the vessel
heading when `m_VesselSpeed < m_speed_1`, the GPS course when `m_VesselSpeed >= m_speed_2`,
and the call `linearFunctionBetweenAngle(m_VesselSpeed, m_speed_1, m_speed_2,
m_VesselHeading, m_GPSCourse)` exactly when `m_speed_1 <= m_VesselSpeed < m_speed_2`. -/
theorem estimateVesselCourse_bands (node : StateEstimationNode) :
    (node.m_VesselSpeed < node.estimateVesselCourse.1.m_speed_1 →
      node.estimateVesselCourse.2 = CourseEstimate.vesselHeading node.m_VesselHeading) ∧
    (node.m_VesselSpeed ≥ node.m_speed_2 →
      node.estimateVesselCourse.2 = CourseEstimate.gpsCourse node.m_GPSCourse) ∧
    (node.estimateVesselCourse.2
        = CourseEstimate.linearFunctionBetweenAngle node.m_VesselSpeed
            node.estimateVesselCourse.1.m_speed_1 node.m_speed_2 node.m_VesselHeading
            node.m_GPSCourse ↔
      node.estimateVesselCourse.1.m_speed_1 ≤ node.m_VesselSpeed ∧
        node.m_VesselSpeed < node.m_speed_2) ∧
    ((∃ x x1 x2 angle1 angle2, node.estimateVesselCourse.2
        = CourseEstimate.linearFunctionBetweenAngle x x1 x2 angle1 angle2) ↔
      node.estimateVesselCourse.1.m_speed_1 ≤ node.m_VesselSpeed ∧
        node.m_VesselSpeed < node.m_speed_2) ∧
    (node.m_speed_1 ≤ node.m_speed_2 →
      node.estimateVesselCourse.1.m_speed_1 = node.m_speed_1) := by
  rw [StateEstimationNode.estimateVesselCourse_node]
  have hband : ∀ x x1 x2 angle1 angle2, node.estimateVesselCourse.2
        = CourseEstimate.linearFunctionBetweenAngle x x1 x2 angle1 angle2 →
      node.orderSpeeds.m_speed_1 ≤ node.m_VesselSpeed ∧ node.m_VesselSpeed < node.m_speed_2 := by
    intro x x1 x2 angle1 angle2 heq
    by_cases h₁ : node.m_VesselSpeed < node.orderSpeeds.m_speed_1
    · rw [StateEstimationNode.estimateVesselCourse_heading node h₁] at heq
      exact CourseEstimate.noConfusion heq
    · by_cases h₂ : node.m_speed_2 ≤ node.m_VesselSpeed
      · rw [StateEstimationNode.estimateVesselCourse_gpsCourse node h₂] at heq
        exact CourseEstimate.noConfusion heq
      · exact ⟨not_lt.1 h₁, not_le.1 h₂⟩
  refine ⟨StateEstimationNode.estimateVesselCourse_heading node,
    StateEstimationNode.estimateVesselCourse_gpsCourse node, ⟨hband _ _ _ _ _, ?_⟩,
    ⟨?_, ?_⟩, ?_⟩
  · rintro ⟨h₁, h₂⟩
    exact StateEstimationNode.estimateVesselCourse_interpolated node h₁ h₂
  · rintro ⟨x, x1, x2, angle1, angle2, heq⟩
    exact hband _ _ _ _ _ heq
  · rintro ⟨h₁, h₂⟩
    exact ⟨_, _, _, _, _, StateEstimationNode.estimateVesselCourse_interpolated node h₁ h₂⟩
  · intro hle
    unfold StateEstimationNode.orderSpeeds
    simp [not_lt.2 hle]

theorem estimateVesselCourse_bands_witness :
    (StateEstimationNode.estimateVesselCourse
        { StateEstimationNode.init 1 2 4 with
          m_VesselSpeed := 1, m_VesselHeading := 90, m_GPSCourse := 100 }).2
      = CourseEstimate.vesselHeading 90 :=
  (estimateVesselCourse_bands
    { StateEstimationNode.init 1 2 4 with
      m_VesselSpeed := 1, m_VesselHeading := 90, m_GPSCourse := 100 }).1
    (by norm_num [StateEstimationNode.estimateVesselCourse, StateEstimationNode.orderSpeeds,
      StateEstimationNode.init])

/-- C20: after every call of `estimateVesselCourse` the thresholds are ordered,
`m_speed_1 <= m_speed_2`: a larger `m_speed_1` has been lowered to `m_speed_2`, which is left
as it was. Whenever the call reaches `linearFunctionBetweenAngle`, it passes these two
thresholds and they satisfy `m_speed_1 < m_speed_2`. -/
theorem estimateVesselCourse_speeds_ordered (node : StateEstimationNode) :
    node.estimateVesselCourse.1.m_speed_1 ≤ node.estimateVesselCourse.1.m_speed_2 ∧
    node.estimateVesselCourse.1.m_speed_2 = node.m_speed_2 ∧
    (node.m_speed_1 > node.m_speed_2 →
      node.estimateVesselCourse.1.m_speed_1 = node.m_speed_2) ∧
    (∀ x x1 x2 angle1 angle2, node.estimateVesselCourse.2
        = CourseEstimate.linearFunctionBetweenAngle x x1 x2 angle1 angle2 →
      x1 = node.estimateVesselCourse.1.m_speed_1 ∧
      x2 = node.estimateVesselCourse.1.m_speed_2 ∧ x1 < x2) := by
  rw [StateEstimationNode.estimateVesselCourse_node]
  obtain ⟨h2, _, _, _⟩ := StateEstimationNode.orderSpeeds_members node
  refine ⟨StateEstimationNode.orderSpeeds_le node, h2, ?_, ?_⟩
  · intro hgt
    unfold StateEstimationNode.orderSpeeds
    simp [hgt]
  · intro x x1 x2 angle1 angle2 heq
    by_cases h₁ : node.m_VesselSpeed < node.orderSpeeds.m_speed_1
    · rw [StateEstimationNode.estimateVesselCourse_heading node h₁] at heq
      exact CourseEstimate.noConfusion heq
    · by_cases hge : node.m_speed_2 ≤ node.m_VesselSpeed
      · rw [StateEstimationNode.estimateVesselCourse_gpsCourse node hge] at heq
        exact CourseEstimate.noConfusion heq
      · rw [StateEstimationNode.estimateVesselCourse_interpolated node (not_lt.1 h₁)
          (not_le.1 hge)] at heq
        injection heq with _ e1 e2 _ _
        rw [← e1, ← e2, h2]
        exact ⟨rfl, rfl, lt_of_le_of_lt (not_lt.1 h₁) (not_le.1 hge)⟩

theorem estimateVesselCourse_speeds_ordered_witness :
    (StateEstimationNode.estimateVesselCourse
        { StateEstimationNode.init 1 5 2 with m_VesselSpeed := 3 }).1.m_speed_1 = 2 :=
  (estimateVesselCourse_speeds_ordered
    { StateEstimationNode.init 1 5 2 with m_VesselSpeed := 3 }).2.2.1
    (by norm_num [StateEstimationNode.init])


/-! ## Properties of the waypoint harvesting -/

/-- C18: `harvestWaypoint` returns false whenever the distance to the next waypoint is greater
than `m_nextRadius`; when the distance is at most the radius and `m_nextStayTime` is not
positive it returns true; and when the distance is at most the radius and `m_nextStayTime` is
positive it returns true exactly when the waypoint timer, started by the call, has reached
`m_nextStayTime`. -/
theorem harvestWaypoint_decision {Timer : Type} (T : TimerOps Timer)
    (calculateDTW : ℚ → ℚ → ℚ → ℚ → ℚ) (node : WaypointMgrNode Timer) :
    (node.distanceToWaypoint calculateDTW > (node.m_nextRadius : ℚ) →
      (node.harvestWaypoint T calculateDTW).2.2 = false) ∧
    (node.distanceToWaypoint calculateDTW ≤ (node.m_nextRadius : ℚ) →
      ¬ node.m_nextStayTime > 0 →
      (node.harvestWaypoint T calculateDTW).2.2 = true) ∧
    (node.distanceToWaypoint calculateDTW ≤ (node.m_nextRadius : ℚ) →
      node.m_nextStayTime > 0 →
      ((node.harvestWaypoint T calculateDTW).2.2 = true ↔
        T.timeReached (T.start node.m_waypointTimer) node.m_nextStayTime = true)) := by
  refine ⟨?_, ?_, ?_⟩
  · intro h
    simp [WaypointMgrNode.harvestWaypoint, h]
  · intro h hstay
    simp [WaypointMgrNode.harvestWaypoint, not_lt.2 h, hstay]
  · intro h hstay
    have hstart : (node.startStayTimer T).1.m_waypointTimer = T.start node.m_waypointTimer ∧
        (node.startStayTimer T).1.m_nextStayTime = node.m_nextStayTime := by
      unfold WaypointMgrNode.startStayTimer
      cases node.writeTime <;> simp
    unfold WaypointMgrNode.harvestWaypoint
    simp only [not_lt.2 h, if_false, hstay, if_true, hstart.1, hstart.2]
    cases T.timeReached (T.start node.m_waypointTimer) node.m_nextStayTime <;> simp

theorem harvestWaypoint_decision_witness :
    (WaypointMgrNode.harvestWaypoint
        { start := fun t : Int => t, timeReached := fun t seconds => decide (seconds ≤ t) }
        (fun _ _ _ _ => 20)
        { m_vesselLongitude := 0, m_vesselLatitude := 0, m_nextLongitude := 0,
          m_nextLatitude := 0, m_nextRadius := 15, m_nextStayTime := 30,
          m_waypointTimer := 40, writeTime := false }).2.2 = false :=
  (harvestWaypoint_decision
    { start := fun t : Int => t, timeReached := fun t seconds => decide (seconds ≤ t) }
    (fun _ _ _ _ => 20)
    { m_vesselLongitude := 0, m_vesselLatitude := 0, m_nextLongitude := 0,
      m_nextLatitude := 0, m_nextRadius := 15, m_nextStayTime := 30,
      m_waypointTimer := 40, writeTime := false }).1
    (by norm_num [WaypointMgrNode.distanceToWaypoint])

/-! ## Properties of the line following -/

namespace LineFollowNode

theorem floatLoopAbove360_le (fuel : Nat) :
    ∀ diff : ℚ, diff ≤ 360 + 360 * fuel → floatLoopAbove360 fuel diff ≤ 360 := by
  induction fuel with
  | zero =>
    intro diff h
    simpa [floatLoopAbove360] using h
  | succ n ih =>
    intro diff h
    unfold floatLoopAbove360
    by_cases hgt : diff > 360
    · simp only [hgt, if_true]
      apply ih
      push_cast at h
      linarith
    · simp only [hgt, if_false]
      exact not_lt.1 hgt

theorem floatWhileAbove360_le (diff : ℚ) : floatWhileAbove360 diff ≤ 360 := by
  apply floatLoopAbove360_le
  have h : diff / 360 ≤ (⌈diff / 360⌉₊ : ℚ) := Nat.le_ceil _
  have h' : diff ≤ 360 * (⌈diff / 360⌉₊ : ℚ) := by
    have := (div_le_iff₀ (by norm_num : (0 : ℚ) < 360)).1 h
    linarith
  linarith

theorem intLoopAbove360_le (fuel : Nat) :
    ∀ returnValue : Int, returnValue ≤ 360 + 360 * fuel →
      intLoopAbove360 fuel returnValue ≤ 360 := by
  induction fuel with
  | zero =>
    intro r h
    simpa [intLoopAbove360] using h
  | succ n ih =>
    intro r h
    unfold intLoopAbove360
    by_cases hgt : r > 360
    · simp only [hgt, if_true]
      apply ih
      push_cast at h
      omega
    · simp only [hgt, if_false]
      omega

theorem intWhileAbove360_le (returnValue : Int) : intWhileAbove360 returnValue ≤ 360 := by
  apply intLoopAbove360_le
  have := Int.self_le_toNat returnValue
  omega

theorem getMergedHeading_node (U : Utility) (node : LineFollowNode)
    (gpsHeading compassHeading : Int) (increaseCompassWeight : Bool) :
    (getMergedHeading U node gpsHeading compassHeading increaseCompassWeight).2
      = node.updateGpsHeadingWeight increaseCompassWeight := rfl

end LineFollowNode

/-- C15, evaluated where it fails: with `m_maxCommandAngle = M_PI / 6` and a heading error of a
quarter turn (cosine 0, sine 1) the value handed to `getCommand` is
`(M_PI / 6) / NORM_RUDDER_COMMAND`, about 1.0135, which is greater than 1. -/
theorem rudderCommandArgument_above_one (U : Utility) (declination : Int) (weight : ℚ) :
    LineFollowNode.rudderCommandArgument U
        { m_nextWaypointDeclination := declination, m_gpsHeadingWeight := weight,
          m_maxCommandAngle := LineFollowNode.maxCommandAngle } 0 1
      = 157079632679489661923 / 154980000000000000000 ∧
    (1 : ℚ) < LineFollowNode.rudderCommandArgument U
        { m_nextWaypointDeclination := declination, m_gpsHeadingWeight := weight,
          m_maxCommandAngle := LineFollowNode.maxCommandAngle } 0 1 := by
  have h : LineFollowNode.rudderCommandArgument U
        { m_nextWaypointDeclination := declination, m_gpsHeadingWeight := weight,
          m_maxCommandAngle := LineFollowNode.maxCommandAngle } 0 1
      = 157079632679489661923 / 154980000000000000000 := by
    norm_num [LineFollowNode.rudderCommandArgument, LineFollowNode.rudderCommand,
      LineFollowNode.maxCommandAngle, M_PI, NORM_RUDDER_COMMAND]
  refine ⟨h, ?_⟩
  rw [h]
  norm_num

/-- C17, evaluated where it fails: from a GPS heading weight of 0.5 the first
`getMergedHeading` call of `getHeading`, which passes `true`, leaves the weight 0.49, so the
weight has gone down by one tick and the compass share `1 - m_gpsHeadingWeight` has grown. -/
theorem getMergedHeading_first_call_lowers_weight (U : Utility) (declination : Int)
    (maxAngle : ℚ) (gpsHeading compassHeading : Int) :
    (LineFollowNode.getMergedHeading U
        { m_nextWaypointDeclination := declination, m_gpsHeadingWeight := 1 / 2,
          m_maxCommandAngle := maxAngle } gpsHeading compassHeading true).2.m_gpsHeadingWeight
      = 49 / 100 ∧
    (1 : ℚ) - 1 / 2 < 1 - (LineFollowNode.getMergedHeading U
        { m_nextWaypointDeclination := declination, m_gpsHeadingWeight := 1 / 2,
          m_maxCommandAngle := maxAngle } gpsHeading compassHeading true).2.m_gpsHeadingWeight := by
  rw [LineFollowNode.getMergedHeading_node]
  norm_num [LineFollowNode.updateGpsHeadingWeight]


/-! ## Properties of the low-level controller of ASPire -/

namespace LowLevelControllerNodeASPire

theorem processAll_append_singleton {Wingsail Regulator : Type}
    (ops : ControlOps Wingsail Regulator) (D : Nat)
    (node : LowLevelControllerNodeASPire Wingsail Regulator) (history : List ControllerInput)
    (message : ControllerInput) :
    processAll ops D node (history ++ [message])
      = (processMessage ops D (processAll ops D node history) message).1 := by
  simp [processAll, List.foldl_append]

theorem processAll_cons {Wingsail Regulator : Type}
    (ops : ControlOps Wingsail Regulator) (D : Nat)
    (node : LowLevelControllerNodeASPire Wingsail Regulator) (message : ControllerInput)
    (rest : List ControllerInput) :
    processAll ops D node (message :: rest) = processAll ops D (receive ops node message) rest :=
  rfl

theorem receive_heading {Wingsail Regulator : Type}
    (ops : ControlOps Wingsail Regulator) (D : Nat)
    (node : LowLevelControllerNodeASPire Wingsail Regulator) (message : ControllerInput)
    (hdata : message.carriesData D = true) :
    (receive ops node message).m_VesselHeading ≠ D ↔
      node.m_VesselHeading ≠ D ∨ message.isStateMessage = true := by
  cases message with
  | stateMessage msg =>
    have h : msg.heading ≠ D := by simpa [ControllerInput.carriesData] using hdata
    simp [receive, processStateMessage, ControllerInput.isStateMessage, h]
  | windState msg => simp [receive, processWindStateMessage, ControllerInput.isStateMessage]
  | navigationControl msg =>
    simp [receive, processNavigationControlMessage, ControllerInput.isStateMessage]
  | other type => simp [receive, ControllerInput.isStateMessage]

theorem receive_trueWindSpeed {Wingsail Regulator : Type}
    (ops : ControlOps Wingsail Regulator) (D : Nat)
    (node : LowLevelControllerNodeASPire Wingsail Regulator) (message : ControllerInput)
    (hdata : message.carriesData D = true) :
    (receive ops node message).m_TrueWindSpeed ≠ D ↔
      node.m_TrueWindSpeed ≠ D ∨ message.isWindState = true := by
  cases message with
  | stateMessage msg => simp [receive, processStateMessage, ControllerInput.isWindState]
  | windState msg =>
    have h : msg.trueWindSpeed ≠ D := by simpa [ControllerInput.carriesData] using hdata
    simp [receive, processWindStateMessage, ControllerInput.isWindState, h]
  | navigationControl msg =>
    simp [receive, processNavigationControlMessage, ControllerInput.isWindState]
  | other type => simp [receive, ControllerInput.isWindState]

theorem receive_courseToSteer {Wingsail Regulator : Type}
    (ops : ControlOps Wingsail Regulator) (D : Nat)
    (node : LowLevelControllerNodeASPire Wingsail Regulator) (message : ControllerInput)
    (hdata : message.carriesData D = true) :
    (receive ops node message).m_CourseToSteer ≠ D ↔
      node.m_CourseToSteer ≠ D ∨ message.isNavigationControl = true := by
  cases message with
  | stateMessage msg => simp [receive, processStateMessage, ControllerInput.isNavigationControl]
  | windState msg =>
    simp [receive, processWindStateMessage, ControllerInput.isNavigationControl]
  | navigationControl msg =>
    have h : msg.courseToSteer ≠ D := by simpa [ControllerInput.carriesData] using hdata
    simp [receive, processNavigationControlMessage, ControllerInput.isNavigationControl, h]
  | other type => simp [receive, ControllerInput.isNavigationControl]

theorem processAll_heading {Wingsail Regulator : Type}
    (ops : ControlOps Wingsail Regulator) (D : Nat)
    (messages : List ControllerInput) :
    ∀ node : LowLevelControllerNodeASPire Wingsail Regulator,
      (∀ m ∈ messages, m.carriesData D = true) →
      ((processAll ops D node messages).m_VesselHeading ≠ D ↔
        node.m_VesselHeading ≠ D ∨ ∃ m ∈ messages, m.isStateMessage = true) := by
  induction messages with
  | nil => intro node _; simp [processAll]
  | cons message rest ih =>
    intro node hdata
    rw [processAll_cons, ih _ (fun m hm => hdata m (List.mem_cons_of_mem _ hm)),
      receive_heading ops D node message (hdata message (List.mem_cons_self _ _))]
    simp only [List.exists_mem_cons_iff, List.mem_cons, exists_eq_or_imp, or_assoc]

theorem processAll_trueWindSpeed {Wingsail Regulator : Type}
    (ops : ControlOps Wingsail Regulator) (D : Nat)
    (messages : List ControllerInput) :
    ∀ node : LowLevelControllerNodeASPire Wingsail Regulator,
      (∀ m ∈ messages, m.carriesData D = true) →
      ((processAll ops D node messages).m_TrueWindSpeed ≠ D ↔
        node.m_TrueWindSpeed ≠ D ∨ ∃ m ∈ messages, m.isWindState = true) := by
  induction messages with
  | nil => intro node _; simp [processAll]
  | cons message rest ih =>
    intro node hdata
    rw [processAll_cons, ih _ (fun m hm => hdata m (List.mem_cons_of_mem _ hm)),
      receive_trueWindSpeed ops D node message (hdata message (List.mem_cons_self _ _))]
    simp only [List.exists_mem_cons_iff, List.mem_cons, exists_eq_or_imp, or_assoc]

theorem processAll_courseToSteer {Wingsail Regulator : Type}
    (ops : ControlOps Wingsail Regulator) (D : Nat)
    (messages : List ControllerInput) :
    ∀ node : LowLevelControllerNodeASPire Wingsail Regulator,
      (∀ m ∈ messages, m.carriesData D = true) →
      ((processAll ops D node messages).m_CourseToSteer ≠ D ↔
        node.m_CourseToSteer ≠ D ∨ ∃ m ∈ messages, m.isNavigationControl = true) := by
  induction messages with
  | nil => intro node _; simp [processAll]
  | cons message rest ih =>
    intro node hdata
    rw [processAll_cons, ih _ (fun m hm => hdata m (List.mem_cons_of_mem _ hm)),
      receive_courseToSteer ops D node message (hdata message (List.mem_cons_self _ _))]
    simp only [List.exists_mem_cons_iff, List.mem_cons, exists_eq_or_imp, or_assoc]

theorem processMessage_sent_length {Wingsail Regulator : Type}
    (ops : ControlOps Wingsail Regulator) (D : Nat)
    (node : LowLevelControllerNodeASPire Wingsail Regulator) (message : ControllerInput) :
    ((processMessage ops D node message).2.length = 1 ↔
      (processMessage ops D node message).1.m_VesselHeading ≠ D ∧
      (processMessage ops D node message).1.m_TrueWindSpeed ≠ D ∧
      (processMessage ops D node message).1.m_CourseToSteer ≠ D) ∧
    ((processMessage ops D node message).2.length = 0 ∨
      (processMessage ops D node message).2.length = 1) := by
  unfold processMessage
  simp only []
  split_ifs with h
  · exact ⟨⟨fun _ => h, fun _ => rfl⟩, Or.inr rfl⟩
  · exact ⟨⟨fun hlen => absurd hlen (by simp), fun hall => absurd hall h⟩, Or.inl rfl⟩

end LowLevelControllerNodeASPire

/-- C16, as stated, fails: for a value of `DATA_OUT_OF_RANGE` (any value serves), a node that
starts with the three members at `DATA_OUT_OF_RANGE` and processes a StateMessage whose
heading is `DATA_OUT_OF_RANGE`, then a WindState message, then a NavigationControl message has
processed one message of every type, and yet the last call enqueues nothing. -/
theorem processMessage_all_received_counterexample :
    (LowLevelControllerNodeASPire.processMessage
        { setVesselHeading := fun (w : Unit) _ => w, setTrueWindDirection := fun w _ => w,
          calculateServoAngle := fun _ => 0, setVesselCourse := fun (r : Unit) _ => r,
          setCourseToSteer := fun r _ => r, calculateRudderAngle := fun _ => 0 }
        3304718336
        (LowLevelControllerNodeASPire.processAll
          { setVesselHeading := fun (w : Unit) _ => w, setTrueWindDirection := fun w _ => w,
            calculateServoAngle := fun _ => 0, setVesselCourse := fun (r : Unit) _ => r,
            setCourseToSteer := fun r _ => r, calculateRudderAngle := fun _ => 0 }
          3304718336
          { m_VesselHeading := 3304718336, m_VesselLatitude := 0, m_VesselLongitude := 0,
            m_VesselSpeed := 0, m_VesselCourse := 0, m_TrueWindSpeed := 3304718336,
            m_TrueWindDir := 0, m_ApparentWindSpeed := 0, m_ApparentWindDir := 0,
            m_NavigationState := 0, m_CourseToSteer := 3304718336, m_TargetSpeed := 0,
            m_WindvaneSelfSteeringOn := false, m_WingsailControl := (), m_CourseRegulator := () }
          [ControllerInput.stateMessage (StateMessage.initBroadcast 3304718336 0 0 0 0),
           ControllerInput.windState
            { trueWindSpeed := 1084227584, trueWindDirection := 0, apparentWindSpeed := 0,
              apparentWindDirection := 0 }])
        (ControllerInput.navigationControl
          { navigationState := 0, courseToSteer := 1119092736, targetSpeed := 0,
            windvaneSelfSteeringOn := false })).2 = [] ∧
    (ControllerInput.stateMessage
      (StateMessage.initBroadcast 3304718336 0 0 0 0)).isStateMessage = true ∧
    (ControllerInput.windState
      { trueWindSpeed := 1084227584, trueWindDirection := 0, apparentWindSpeed := 0,
        apparentWindDirection := 0 }).isWindState = true ∧
    (ControllerInput.navigationControl
      { navigationState := 0, courseToSteer := 1119092736, targetSpeed := 0,
        windvaneSelfSteeringOn := false }).isNavigationControl = true := by
  refine ⟨?_, rfl, rfl, rfl⟩
  decide

/-- C16, amended: starting from a state in which `m_VesselHeading`, `m_TrueWindSpeed` and
`m_CourseToSteer` hold `DATA_OUT_OF_RANGE`, and as long as no processed message carries
`DATA_OUT_OF_RANGE` in the field the node tests (heading, true wind speed, course to steer), a
call of `processMessage` enqueues an `ActuatorControlASPireMessage` exactly when at least one
StateMessage, one WindState message and one NavigationControl message have been processed up
to and including that call; it never enqueues more than one. -/
theorem processMessage_sends_once_all_received {Wingsail Regulator : Type}
    (ops : ControlOps Wingsail Regulator) (D : Nat)
    (node : LowLevelControllerNodeASPire Wingsail Regulator) (history : List ControllerInput)
    (message : ControllerInput)
    (hinit : node.m_VesselHeading = D ∧ node.m_TrueWindSpeed = D ∧ node.m_CourseToSteer = D)
    (hdata : ∀ m ∈ history ++ [message], m.carriesData D = true) :
    ((LowLevelControllerNodeASPire.processMessage ops D
        (LowLevelControllerNodeASPire.processAll ops D node history) message).2.length = 1 ↔
      (∃ m ∈ history ++ [message], m.isStateMessage = true) ∧
      (∃ m ∈ history ++ [message], m.isWindState = true) ∧
      (∃ m ∈ history ++ [message], m.isNavigationControl = true)) ∧
    ((LowLevelControllerNodeASPire.processMessage ops D
        (LowLevelControllerNodeASPire.processAll ops D node history) message).2.length = 0 ∨
     (LowLevelControllerNodeASPire.processMessage ops D
        (LowLevelControllerNodeASPire.processAll ops D node history) message).2.length = 1) := by
  obtain ⟨hlen, hle⟩ := LowLevelControllerNodeASPire.processMessage_sent_length ops D
    (LowLevelControllerNodeASPire.processAll ops D node history) message
  refine ⟨?_, hle⟩
  rw [hlen, ← LowLevelControllerNodeASPire.processAll_append_singleton,
    LowLevelControllerNodeASPire.processAll_heading ops D _ node hdata,
    LowLevelControllerNodeASPire.processAll_trueWindSpeed ops D _ node hdata,
    LowLevelControllerNodeASPire.processAll_courseToSteer ops D _ node hdata]
  simp [hinit.1, hinit.2.1, hinit.2.2]

theorem processMessage_sends_once_all_received_witness :
    (LowLevelControllerNodeASPire.processMessage
        { setVesselHeading := fun (w : Unit) _ => w, setTrueWindDirection := fun w _ => w,
          calculateServoAngle := fun _ => 0, setVesselCourse := fun (r : Unit) _ => r,
          setCourseToSteer := fun r _ => r, calculateRudderAngle := fun _ => 0 }
        3304718336
        (LowLevelControllerNodeASPire.processAll
          { setVesselHeading := fun (w : Unit) _ => w, setTrueWindDirection := fun w _ => w,
            calculateServoAngle := fun _ => 0, setVesselCourse := fun (r : Unit) _ => r,
            setCourseToSteer := fun r _ => r, calculateRudderAngle := fun _ => 0 }
          3304718336
          { m_VesselHeading := 3304718336, m_VesselLatitude := 0, m_VesselLongitude := 0,
            m_VesselSpeed := 0, m_VesselCourse := 0, m_TrueWindSpeed := 3304718336,
            m_TrueWindDir := 0, m_ApparentWindSpeed := 0, m_ApparentWindDir := 0,
            m_NavigationState := 0, m_CourseToSteer := 3304718336, m_TargetSpeed := 0,
            m_WindvaneSelfSteeringOn := false, m_WingsailControl := (), m_CourseRegulator := () }
          [ControllerInput.stateMessage (StateMessage.initBroadcast 1119092736 0 0 0 0),
           ControllerInput.windState
            { trueWindSpeed := 1084227584, trueWindDirection := 0, apparentWindSpeed := 0,
              apparentWindDirection := 0 }])
        (ControllerInput.navigationControl
          { navigationState := 0, courseToSteer := 1119092736, targetSpeed := 0,
            windvaneSelfSteeringOn := false })).2.length = 1 :=
  (processMessage_sends_once_all_received
    { setVesselHeading := fun (w : Unit) _ => w, setTrueWindDirection := fun w _ => w,
      calculateServoAngle := fun _ => 0, setVesselCourse := fun (r : Unit) _ => r,
      setCourseToSteer := fun r _ => r, calculateRudderAngle := fun _ => 0 }
    3304718336
    { m_VesselHeading := 3304718336, m_VesselLatitude := 0, m_VesselLongitude := 0,
      m_VesselSpeed := 0, m_VesselCourse := 0, m_TrueWindSpeed := 3304718336,
      m_TrueWindDir := 0, m_ApparentWindSpeed := 0, m_ApparentWindDir := 0,
      m_NavigationState := 0, m_CourseToSteer := 3304718336, m_TargetSpeed := 0,
      m_WindvaneSelfSteeringOn := false, m_WingsailControl := (), m_CourseRegulator := () }
    [ControllerInput.stateMessage (StateMessage.initBroadcast 1119092736 0 0 0 0),
     ControllerInput.windState
      { trueWindSpeed := 1084227584, trueWindDirection := 0, apparentWindSpeed := 0,
        apparentWindDirection := 0 }]
    (ControllerInput.navigationControl
      { navigationState := 0, courseToSteer := 1119092736, targetSpeed := 0,
        windvaneSelfSteeringOn := false })
    ⟨rfl, rfl, rfl⟩ (by decide)).1.2
    (by simp [ControllerInput.isStateMessage, ControllerInput.isWindState,
      ControllerInput.isNavigationControl])



/-! ## Properties of the vessel state estimation -/

namespace StateEstimationNode

theorem orderSpeeds_heading_inputs (node : StateEstimationNode) :
    node.orderSpeeds.m_CompassHeading = node.m_CompassHeading ∧
    node.orderSpeeds.m_WaypointDeclination = node.m_WaypointDeclination ∧
    node.orderSpeeds.m_VesselHeading = node.m_VesselHeading := by
  unfold orderSpeeds
  by_cases h : node.m_speed_1 > node.m_speed_2 <;> simp [h]

theorem estimateVesselState_members (limitAngleRange : ℚ → ℚ)
    (interpolate : ℚ → ℚ → ℚ → ℚ → ℚ → ℚ) (node : StateEstimationNode) :
    (node.estimateVesselState limitAngleRange interpolate).1.m_VesselHeading
      = limitAngleRange (node.m_CompassHeading + node.m_WaypointDeclination) ∧
    (node.estimateVesselState limitAngleRange interpolate).1.m_CompassHeading
      = node.m_CompassHeading ∧
    (node.estimateVesselState limitAngleRange interpolate).1.m_WaypointDeclination
      = node.m_WaypointDeclination := by
  unfold estimateVesselState
  cases hgps : node.m_GpsOnline
  · simp [hgps]
  · simp only [hgps, if_true, estimateVesselCourse_node]
    refine ⟨?_, ?_, ?_⟩
    · exact (orderSpeeds_heading_inputs _).2.2
    · exact (orderSpeeds_heading_inputs _).1
    · exact (orderSpeeds_heading_inputs _).2.1

theorem run_cons (limitAngleRange : ℚ → ℚ) (interpolate : ℚ → ℚ → ℚ → ℚ → ℚ → ℚ)
    (node : StateEstimationNode) (event : EstimationEvent) (events : List EstimationEvent) :
    run limitAngleRange interpolate node (event :: events)
      = run limitAngleRange interpolate (step limitAngleRange interpolate node event) events :=
  rfl

theorem run_declination (limitAngleRange : ℚ → ℚ) (interpolate : ℚ → ℚ → ℚ → ℚ → ℚ → ℚ)
    (events : List EstimationEvent) :
    ∀ node : StateEstimationNode,
      (run limitAngleRange interpolate node events).m_WaypointDeclination
        = lastNextDeclination node.m_WaypointDeclination events := by
  induction events with
  | nil => intro node; rfl
  | cons event rest ih =>
    intro node
    rw [run_cons, ih]
    cases event with
    | estimateVesselState =>
      show lastNextDeclination
          (node.estimateVesselState limitAngleRange interpolate).1.m_WaypointDeclination rest = _
      rw [(estimateVesselState_members limitAngleRange interpolate node).2.2]
      rfl
    | processMessage message =>
      cases message <;> rfl

theorem run_compassHeading (limitAngleRange : ℚ → ℚ) (interpolate : ℚ → ℚ → ℚ → ℚ → ℚ → ℚ)
    (events : List EstimationEvent) :
    ∀ node : StateEstimationNode,
      (run limitAngleRange interpolate node events).m_CompassHeading
        = lastCompassHeading node.m_CompassHeading events := by
  induction events with
  | nil => intro node; rfl
  | cons event rest ih =>
    intro node
    rw [run_cons, ih]
    cases event with
    | estimateVesselState =>
      show lastCompassHeading
          (node.estimateVesselState limitAngleRange interpolate).1.m_CompassHeading rest = _
      rw [(estimateVesselState_members limitAngleRange interpolate node).2.1]
      rfl
    | processMessage message =>
      cases message <;> rfl

end StateEstimationNode

/-- C21: every call of `estimateVesselState`, in whatever state and whether the GPS is online
or not, sets `m_VesselHeading` to `limitAngleRange(m_CompassHeading + m_WaypointDeclination)`;
and after any sequence of processed messages and earlier calls on a node built by one of the
two constructors, `m_WaypointDeclination` is the `nextDeclination` of the last WaypointData
message processed (0 before any) and `m_CompassHeading` the heading of the last CompassData
message. -/
theorem estimateVesselState_heading (limitAngleRange : ℚ → ℚ)
    (interpolate : ℚ → ℚ → ℚ → ℚ → ℚ → ℚ) (loopTime speed_1 speed_2 : ℚ)
    (events : List EstimationEvent) :
    (∀ node : StateEstimationNode,
      (node.estimateVesselState limitAngleRange interpolate).1.m_VesselHeading
        = limitAngleRange (node.m_CompassHeading + node.m_WaypointDeclination)) ∧
    (∀ (node : StateEstimationNode) (gpsOnline : Bool),
      ({ node with m_GpsOnline := gpsOnline }.estimateVesselState limitAngleRange
          interpolate).1.m_VesselHeading
        = limitAngleRange (node.m_CompassHeading + node.m_WaypointDeclination)) ∧
    (StateEstimationNode.run limitAngleRange interpolate
        (StateEstimationNode.init loopTime speed_1 speed_2) events).m_WaypointDeclination
      = lastNextDeclination 0 events ∧
    (StateEstimationNode.run limitAngleRange interpolate
        (StateEstimationNode.initLoopTime loopTime) events).m_WaypointDeclination
      = lastNextDeclination 0 events ∧
    ((StateEstimationNode.run limitAngleRange interpolate
        (StateEstimationNode.init loopTime speed_1 speed_2) events).estimateVesselState
        limitAngleRange interpolate).1.m_VesselHeading
      = limitAngleRange (lastCompassHeading 0 events + lastNextDeclination 0 events) ∧
    ((StateEstimationNode.run limitAngleRange interpolate
        (StateEstimationNode.initLoopTime loopTime) events).estimateVesselState
        limitAngleRange interpolate).1.m_VesselHeading
      = limitAngleRange (lastCompassHeading 0 events + lastNextDeclination 0 events) := by
  refine ⟨fun node =>
      (StateEstimationNode.estimateVesselState_members limitAngleRange interpolate node).1,
    fun node gpsOnline =>
      (StateEstimationNode.estimateVesselState_members limitAngleRange interpolate _).1,
    StateEstimationNode.run_declination limitAngleRange interpolate events _,
    StateEstimationNode.run_declination limitAngleRange interpolate events _, ?_, ?_⟩
  · rw [(StateEstimationNode.estimateVesselState_members limitAngleRange interpolate _).1,
      StateEstimationNode.run_declination, StateEstimationNode.run_compassHeading]
    rfl
  · rw [(StateEstimationNode.estimateVesselState_members limitAngleRange interpolate _).1,
      StateEstimationNode.run_declination, StateEstimationNode.run_compassHeading]
    rfl

/-! ## Properties of the GPS heading weight -/

namespace LineFollowNode

theorem updateGpsHeadingWeight_weight (node : LineFollowNode) (increaseCompassWeight : Bool) :
    (node.updateGpsHeadingWeight increaseCompassWeight).m_gpsHeadingWeight
      = if increaseCompassWeight then max (node.m_gpsHeadingWeight - 1 / 100) 0
        else min (node.m_gpsHeadingWeight + 1 / 100) 1 := by
  unfold updateGpsHeadingWeight
  cases increaseCompassWeight
  · simp only [Bool.false_eq_true, if_false]
    by_cases h : node.m_gpsHeadingWeight + 1 / 100 > 1
    · simp only [h, if_true]
      exact (min_eq_right (le_of_lt h)).symm
    · simp only [h, if_false]
      exact (min_eq_left (not_lt.1 h)).symm
  · simp only [if_true]
    by_cases h : node.m_gpsHeadingWeight - 1 / 100 < 0
    · simp only [h, if_true]
      exact (max_eq_right (le_of_lt h)).symm
    · simp only [h, if_false]
      exact (max_eq_left (not_lt.1 h)).symm

theorem getHeading_node (U : Utility) (node : LineFollowNode) (args : HeadingArgs) :
    (node.getHeading U args.gpsHeading args.compassHeading args.gpsSpeed args.mockPosition
        args.getHeadingFromCompass).2
      = (node.updateGpsHeadingWeight true).updateGpsHeadingWeight (gpsForbidden U args) := by
  simp [getHeading, gpsForbidden, getMergedHeading_node]

theorem getHeading_weight (U : Utility) (node : LineFollowNode) (args : HeadingArgs) :
    (node.getHeading U args.gpsHeading args.compassHeading args.gpsSpeed args.mockPosition
        args.getHeadingFromCompass).2.m_gpsHeadingWeight
      = if gpsForbidden U args then max (max (node.m_gpsHeadingWeight - 1 / 100) 0 - 1 / 100) 0
        else min (max (node.m_gpsHeadingWeight - 1 / 100) 0 + 1 / 100) 1 := by
  rw [getHeading_node, updateGpsHeadingWeight_weight, updateGpsHeadingWeight_weight]
  simp

theorem getHeading_weight_step (U : Utility) (node : LineFollowNode) (args : HeadingArgs)
    (h0 : 0 ≤ node.m_gpsHeadingWeight) (h1 : node.m_gpsHeadingWeight ≤ 1) :
    0 ≤ (node.getHeading U args.gpsHeading args.compassHeading args.gpsSpeed args.mockPosition
        args.getHeadingFromCompass).2.m_gpsHeadingWeight ∧
    (node.getHeading U args.gpsHeading args.compassHeading args.gpsSpeed args.mockPosition
        args.getHeadingFromCompass).2.m_gpsHeadingWeight ≤ 1 ∧
    (node.getHeading U args.gpsHeading args.compassHeading args.gpsSpeed args.mockPosition
        args.getHeadingFromCompass).2.m_gpsHeadingWeight
      ≤ max node.m_gpsHeadingWeight (1 / 100) := by
  rw [getHeading_weight]
  cases gpsForbidden U args
  · simp only [Bool.false_eq_true, if_false]
    refine ⟨?_, min_le_right _ _, ?_⟩
    · apply le_min
      · have := le_max_right (node.m_gpsHeadingWeight - 1 / 100) 0
        linarith
      · norm_num
    · apply le_trans (min_le_left _ _)
      rcases le_total (node.m_gpsHeadingWeight - 1 / 100) 0 with h | h
      · rw [max_eq_right h]
        apply le_trans _ (le_max_right _ _)
        norm_num
      · rw [max_eq_left h]
        apply le_trans _ (le_max_left _ _)
        linarith
  · simp only [if_true]
    refine ⟨le_max_right _ _, ?_, ?_⟩
    · apply max_le
      · have : max (node.m_gpsHeadingWeight - 1 / 100) 0 ≤ 1 :=
          max_le (by linarith) (by norm_num)
        linarith
      · norm_num
    · apply max_le
      · have : max (node.m_gpsHeadingWeight - 1 / 100) 0 ≤ node.m_gpsHeadingWeight :=
          max_le (by linarith) h0
        apply le_trans _ (le_max_left _ _)
        linarith
      · apply le_trans _ (le_max_right _ _)
        norm_num

theorem getHeadingAll_weight_le (U : Utility) (bound : ℚ) (hbound : 1 / 100 ≤ bound)
    (calls : List HeadingArgs) :
    ∀ node : LineFollowNode, 0 ≤ node.m_gpsHeadingWeight → node.m_gpsHeadingWeight ≤ 1 →
      node.m_gpsHeadingWeight ≤ bound →
      (getHeadingAll U node calls).m_gpsHeadingWeight ≤ bound := by
  induction calls with
  | nil => intro node _ _ h; exact h
  | cons args rest ih =>
    intro node h0 h1 hle
    obtain ⟨s0, s1, smax⟩ := getHeading_weight_step U node args h0 h1
    exact ih _ s0 s1 (le_trans smax (max_le hle hbound))

end LineFollowNode

/-- C22: for a GPS heading weight `w` between 0 and 1 and whatever the arguments, the weight
after one `getHeading` call is at most `max(w, 0.01)`: it is `w - 0.02` clamped at 0 when the
GPS is forbidden, and it is unchanged for `w >= 0.01` when the GPS is allowed. Hence over any
sequence of `getHeading` calls the weight never exceeds `max(w, 0.01)`. -/
theorem getHeading_weight_bounded (U : Utility) (node : LineFollowNode)
    (h0 : 0 ≤ node.m_gpsHeadingWeight) (h1 : node.m_gpsHeadingWeight ≤ 1) :
    (∀ args : HeadingArgs,
      (node.getHeading U args.gpsHeading args.compassHeading args.gpsSpeed args.mockPosition
          args.getHeadingFromCompass).2.m_gpsHeadingWeight
        ≤ max node.m_gpsHeadingWeight (1 / 100)) ∧
    (∀ args : HeadingArgs, LineFollowNode.gpsForbidden U args = true →
      (node.getHeading U args.gpsHeading args.compassHeading args.gpsSpeed args.mockPosition
          args.getHeadingFromCompass).2.m_gpsHeadingWeight
        = max (node.m_gpsHeadingWeight - 2 / 100) 0) ∧
    (∀ args : HeadingArgs, LineFollowNode.gpsForbidden U args = false →
      1 / 100 ≤ node.m_gpsHeadingWeight →
      (node.getHeading U args.gpsHeading args.compassHeading args.gpsSpeed args.mockPosition
          args.getHeadingFromCompass).2.m_gpsHeadingWeight
        = node.m_gpsHeadingWeight) ∧
    (∀ calls : List HeadingArgs,
      (LineFollowNode.getHeadingAll U node calls).m_gpsHeadingWeight
        ≤ max node.m_gpsHeadingWeight (1 / 100)) := by
  refine ⟨fun args => (LineFollowNode.getHeading_weight_step U node args h0 h1).2.2, ?_, ?_,
    fun calls => LineFollowNode.getHeadingAll_weight_le U _ (le_max_right _ _) calls node h0 h1
      (le_max_left _ _)⟩
  · intro args hforbidden
    rw [LineFollowNode.getHeading_weight, hforbidden]
    simp only [if_true]
    rcases le_total (node.m_gpsHeadingWeight - 1 / 100) 0 with h | h
    · rw [max_eq_right h, max_eq_right (by norm_num), max_eq_right (by linarith)]
    · rw [max_eq_left h]
      congr 1
      ring
  · intro args hallowed hw
    rw [LineFollowNode.getHeading_weight, hallowed]
    simp only [Bool.false_eq_true, if_false]
    rw [max_eq_left (by linarith), min_eq_left (by linarith)]
    ring

theorem getHeading_weight_bounded_witness :
    (LineFollowNode.getHeadingAll
        { sgn := fun _ => 0, addDeclinationToHeading := fun heading declination =>
            heading + declination, directionAdjustedSpeed := fun _ _ gpsSpeed => gpsSpeed }
        { m_nextWaypointDeclination := 0, m_gpsHeadingWeight := 1 / 2, m_maxCommandAngle := 0 }
        [{ gpsHeading := 100, compassHeading := 80, gpsSpeed := 3, mockPosition := false,
           getHeadingFromCompass := true },
         { gpsHeading := 100, compassHeading := 80, gpsSpeed := 0, mockPosition := false,
           getHeadingFromCompass := true }]).m_gpsHeadingWeight
      ≤ max (1 / 2) (1 / 100) :=
  (getHeading_weight_bounded
    { sgn := fun _ => 0, addDeclinationToHeading := fun heading declination =>
        heading + declination, directionAdjustedSpeed := fun _ _ gpsSpeed => gpsSpeed }
    { m_nextWaypointDeclination := 0, m_gpsHeadingWeight := 1 / 2, m_maxCommandAngle := 0 }
    (by norm_num) (by norm_num)).2.2.2
    [{ gpsHeading := 100, compassHeading := 80, gpsSpeed := 3, mockPosition := false,
       getHeadingFromCompass := true },
     { gpsHeading := 100, compassHeading := 80, gpsSpeed := 0, mockPosition := false,
       getHeadingFromCompass := true }]


end SailingRobot
